import Mathlib

/-!
Shallow embedding of the level-definition resolution and dungeon-assembly
pipeline of the `lunacid-clone` repository (src/world/data.rs,
src/world/builder.rs, src/world/geometry.rs, src/world/prefabs.rs).

Modelling conventions:
* Rust `f32` fields are modelled as exact rationals (`ℚ`); the claims under
  study are about the algebraic structure of the computations.
* Rust `HashMap<K, V>` is modelled as an association list `List (K × V)`
  queried with `List.lookup`, the usual shallow model of a finite map.
* A Rust grid row (`String`, consumed via `.chars()`) is a `List Char`.
* Fallible code (`Result<T, String>`) is `Except String T`.
* Bevy side effects (`commands.spawn(...)`) inside the per-tile build loop
  are modelled as emission of `Instruction` values; material handles are
  represented by the material name they are looked up with.
-/

namespace Lunacid

/-- The kind of geometry tile (`enum GeometryKind`, data.rs). -/
inductive GeometryKind where
  | Floor
  | Wall
  | Pillar
  | Doorway
  | Void
deriving DecidableEq, Repr

/-- Source `GeometryKind::has_floor` (data.rs): whether this tile kind has a floor. -/
def GeometryKind.has_floor : GeometryKind → Bool
  | .Floor | .Pillar | .Doorway => true
  | _ => false

/-- Source `GeometryKind::is_solid` (data.rs): whether this tile kind blocks movement. -/
def GeometryKind.is_solid : GeometryKind → Bool
  | .Wall => true
  | _ => false

/-- Rust `struct LightDef` (data.rs). -/
structure LightDef where
  height : ℚ
  intensity : ℚ
  shadows : Bool
  color : ℚ × ℚ × ℚ
  range : ℚ
deriving DecidableEq, Repr

/-- Rust `struct ParticleDef` (data.rs). -/
structure ParticleDef where
  kind : String
  height : ℚ
  rate : ℚ
  color : Option (ℚ × ℚ × ℚ × ℚ)
deriving DecidableEq, Repr

/-- Rust `struct AudioDef` (data.rs). -/
structure AudioDef where
  sound : String
  volume : ℚ
  radius : ℚ
deriving DecidableEq, Repr

/-- Rust `struct GeometryTileDef` (data.rs): palette entry for the geometry layer. -/
structure GeometryTileDef where
  kind : GeometryKind
  material : Option String
  height : Option ℚ
  floor_depth : Option ℚ
deriving DecidableEq, Repr

/-- Rust `struct AmbientTileDef` (data.rs): palette entry for the ambient layer. -/
structure AmbientTileDef where
  lights : List LightDef
  particles : List ParticleDef
  audio : List AudioDef
deriving DecidableEq, Repr

/-- Rust `struct CeilingTileDef` (data.rs): palette entry for the ceiling layer. -/
structure CeilingTileDef where
  material : Option String
  height : Option ℚ
  thickness : Option ℚ
deriving DecidableEq, Repr

/-- Rust `struct ResolvedCeilingTile` (data.rs). -/
structure ResolvedCeilingTile where
  material : String
  height : ℚ
  thickness : ℚ
deriving DecidableEq, Repr

/-- Rust `struct ResolvedGeometryTile` (data.rs). -/
structure ResolvedGeometryTile where
  kind : GeometryKind
  material : String
  height : ℚ
  floor_depth : ℚ
deriving DecidableEq, Repr

/-- Rust `impl Default for ResolvedGeometryTile` (data.rs): Void, "stone", 4.0, 0.5. -/
def ResolvedGeometryTile.defaultTile : ResolvedGeometryTile :=
  { kind := .Void, material := "stone", height := 4, floor_depth := 1/2 }

/-- Rust `struct ResolvedAmbientTile` (data.rs); `#[derive(Default)]` gives empty lists. -/
structure ResolvedAmbientTile where
  lights : List LightDef
  particles : List ParticleDef
  audio : List AudioDef
deriving DecidableEq, Repr

/-- Default `ResolvedAmbientTile`: no lights, particles or audio. -/
def ResolvedAmbientTile.defaultTile : ResolvedAmbientTile :=
  { lights := [], particles := [], audio := [] }

/-- Rust `struct GlobalAmbientDef` (data.rs). -/
structure GlobalAmbientDef where
  color : ℚ × ℚ × ℚ
  brightness : ℚ
deriving DecidableEq, Repr

/-- Rust `struct SpawnZoneDef` (data.rs, deprecated legacy spawn zones). -/
structure SpawnZoneDef where
  pos : Int × Int
  half_extents : Int × Int
  enemy_type : String
  max_enemies : Nat
  spawn_delay : ℚ
deriving DecidableEq, Repr

/-- Rust `struct ResolvedMonsterSpawn` (data.rs). -/
structure ResolvedMonsterSpawn where
  grid_pos : Int × Int
  enemy_type : String
deriving DecidableEq, Repr

/-- Rust `struct GeometryPaletteFile` (data.rs). -/
structure GeometryPaletteFile where
  tiles : List (Char × GeometryTileDef)
deriving DecidableEq, Repr

/-- Rust `struct AmbientPaletteFile` (data.rs). -/
structure AmbientPaletteFile where
  tiles : List (Char × AmbientTileDef)
deriving DecidableEq, Repr

/-- Rust `struct MonsterPaletteFile` (data.rs). -/
structure MonsterPaletteFile where
  entries : List (Char × String)
deriving DecidableEq, Repr

/-- Rust `struct CeilingPaletteFile` (data.rs). -/
structure CeilingPaletteFile where
  tiles : List (Char × CeilingTileDef)
deriving DecidableEq, Repr

/-- Rust `struct PaletteRegistry` (data.rs): loaded external palette files keyed by filename. -/
structure PaletteRegistry where
  geometry : List (String × GeometryPaletteFile)
  ambient : List (String × AmbientPaletteFile)
  monster : List (String × MonsterPaletteFile)
  ceiling : List (String × CeilingPaletteFile)
deriving DecidableEq, Repr

/-- Source `PaletteRegistry::get_geometry` (data.rs). -/
def PaletteRegistry.get_geometry (r : PaletteRegistry) (filename : String) :
    Option GeometryPaletteFile :=
  r.geometry.lookup filename

/-- Source `PaletteRegistry::get_ambient` (data.rs). -/
def PaletteRegistry.get_ambient (r : PaletteRegistry) (filename : String) :
    Option AmbientPaletteFile :=
  r.ambient.lookup filename

/-- Source `PaletteRegistry::get_monster` (data.rs). -/
def PaletteRegistry.get_monster (r : PaletteRegistry) (filename : String) :
    Option MonsterPaletteFile :=
  r.monster.lookup filename

/-- Source `PaletteRegistry::get_ceiling` (data.rs). -/
def PaletteRegistry.get_ceiling (r : PaletteRegistry) (filename : String) :
    Option CeilingPaletteFile :=
  r.ceiling.lookup filename

/-- Rust `struct LevelDefinitionRaw` (data.rs): the raw level description as parsed. -/
structure LevelDefinitionRaw where
  name : String
  tile_size : ℚ
  default_wall_height : ℚ
  default_floor_depth : ℚ
  default_ceiling_height : ℚ
  default_ceiling_thickness : ℚ
  global_ambient : GlobalAmbientDef
  player_start : Int × Int
  geometry_palette_file : Option String
  ambient_palette_file : Option String
  monster_palette_file : Option String
  ceiling_palette_file : Option String
  geometry_palette : List (Char × GeometryTileDef)
  ambient_palette : List (Char × AmbientTileDef)
  monster_palette : List (Char × String)
  ceiling_palette : List (Char × CeilingTileDef)
  geometry : List (List Char)
  ambient : List (List Char)
  monsters : List (List Char)
  ceiling : List (List Char)
  spawn_zones : List SpawnZoneDef
deriving DecidableEq, Repr

/-- Rust `struct LevelDefinition` (data.rs): the resolved level model. -/
structure LevelDefinition where
  name : String
  tile_size : ℚ
  default_wall_height : ℚ
  default_floor_depth : ℚ
  default_ceiling_height : ℚ
  default_ceiling_thickness : ℚ
  global_ambient : GlobalAmbientDef
  player_start : Int × Int
  width : Nat
  height : Nat
  geometry : List (List ResolvedGeometryTile)
  ambient : List (List ResolvedAmbientTile)
  ceiling : List (List (Option ResolvedCeilingTile))
  monster_spawns : List ResolvedMonsterSpawn
  spawn_zones : List SpawnZoneDef
deriving DecidableEq, Repr

/-- Grid width as computed in `from_raw`:
`rows.iter().map(|row| row.chars().count()).max().unwrap_or(0)`. -/
def gridWidth (g : List (List Char)) : Nat :=
  (g.map List.length).foldr max 0

/-- Source `Vec::resize(n, d)`: truncate to `n` elements, or pad with `d` up to `n`. -/
def listResize (l : List α) (n : Nat) (d : α) : List α :=
  l.take n ++ List.replicate (n - l.length) d

/-- Effective geometry palette (`from_raw`): prefer the external file named by
the level if it is in the registry, otherwise fall back to the inline palette. -/
def effectiveGeometryPalette (raw : LevelDefinitionRaw) (reg : PaletteRegistry) :
    List (Char × GeometryTileDef) :=
  match raw.geometry_palette_file with
  | some filename =>
      match reg.get_geometry filename with
      | some f => f.tiles
      | none => raw.geometry_palette
  | none => raw.geometry_palette

/-- Effective ambient palette (`from_raw`), same fallback scheme. -/
def effectiveAmbientPalette (raw : LevelDefinitionRaw) (reg : PaletteRegistry) :
    List (Char × AmbientTileDef) :=
  match raw.ambient_palette_file with
  | some filename =>
      match reg.get_ambient filename with
      | some f => f.tiles
      | none => raw.ambient_palette
  | none => raw.ambient_palette

/-- Effective monster palette (`from_raw`), same fallback scheme. -/
def effectiveMonsterPalette (raw : LevelDefinitionRaw) (reg : PaletteRegistry) :
    List (Char × String) :=
  match raw.monster_palette_file with
  | some filename =>
      match reg.get_monster filename with
      | some f => f.entries
      | none => raw.monster_palette
  | none => raw.monster_palette

/-- Effective ceiling palette (`from_raw`), same fallback scheme. -/
def effectiveCeilingPalette (raw : LevelDefinitionRaw) (reg : PaletteRegistry) :
    List (Char × CeilingTileDef) :=
  match raw.ceiling_palette_file with
  | some filename =>
      match reg.get_ceiling filename with
      | some f => f.tiles
      | none => raw.ceiling_palette
  | none => raw.ceiling_palette

/-- Resolution of one geometry-grid character (`from_raw`, geometry grid loop):
look the character up in the effective palette; a hit fills unset fields from
the level defaults, a miss yields the default (Void) tile. -/
def resolveGeometryChar (pal : List (Char × GeometryTileDef))
    (raw : LevelDefinitionRaw) (c : Char) : ResolvedGeometryTile :=
  match pal.lookup c with
  | some d =>
      { kind := d.kind
        material := d.material.getD "stone"
        height := d.height.getD raw.default_wall_height
        floor_depth := d.floor_depth.getD raw.default_floor_depth }
  | none => ResolvedGeometryTile.defaultTile

/-- Resolution of one ambient-grid character (`from_raw`, ambient grid loop):
`'.'` and `' '` are blanks; otherwise look up, a miss meaning no ambient. -/
def resolveAmbientChar (pal : List (Char × AmbientTileDef)) (c : Char) :
    ResolvedAmbientTile :=
  if c = '.' ∨ c = ' ' then ResolvedAmbientTile.defaultTile
  else
    match pal.lookup c with
    | some d => { lights := d.lights, particles := d.particles, audio := d.audio }
    | none => ResolvedAmbientTile.defaultTile

/-- Resolution of one ceiling-grid character (`from_raw`, authored ceiling grid):
`'.'` and `' '` mean no ceiling; a palette hit fills unset fields from the level
defaults; an unknown character yields the full default ceiling tile. -/
def resolveCeilingChar (pal : List (Char × CeilingTileDef))
    (raw : LevelDefinitionRaw) (c : Char) : Option ResolvedCeilingTile :=
  if c = '.' ∨ c = ' ' then none
  else
    match pal.lookup c with
    | some d =>
        some { material := d.material.getD "ceiling"
               height := d.height.getD raw.default_ceiling_height
               thickness := d.thickness.getD raw.default_ceiling_thickness }
    | none =>
        some { material := "ceiling"
               height := raw.default_ceiling_height
               thickness := raw.default_ceiling_thickness }

/-- One cell of the monster-grid scan of `from_raw`: a non-blank character
with a palette entry pushes one spawn record; a non-blank character without
one is only a logged warning; blanks push nothing. -/
def monsterCellSpawn (pal : List (Char × String)) (z x : Nat) (c : Char) :
    List ResolvedMonsterSpawn :=
  if c ≠ '.' ∧ c ≠ ' ' then
    match pal.lookup c with
    | some enemy_type =>
        [{ grid_pos := ((x : Int), (z : Int)), enemy_type := enemy_type }]
    | none => []
  else []

/-- The monster-grid scan of `from_raw`, inner loop over one row with running
column index `x`. -/
def monsterRowSpawns (pal : List (Char × String)) (z x : Nat) :
    List Char → List ResolvedMonsterSpawn
  | [] => []
  | c :: rest => monsterCellSpawn pal z x c ++ monsterRowSpawns pal z (x + 1) rest

/-- The monster-grid scan of `from_raw`, outer loop over rows with running row
index `z`. -/
def monsterGridSpawns (pal : List (Char × String)) (z : Nat) :
    List (List Char) → List ResolvedMonsterSpawn
  | [] => []
  | row :: rest => monsterRowSpawns pal z 0 row ++ monsterGridSpawns pal (z + 1) rest

/-- The default ceiling tile synthesized by `from_raw` when no ceiling grid was
authored, and used for unknown characters in an authored ceiling grid. -/
def defaultCeilingTile (raw : LevelDefinitionRaw) : ResolvedCeilingTile :=
  { material := "ceiling"
    height := raw.default_ceiling_height
    thickness := raw.default_ceiling_thickness }

/-- The resolved geometry grid of `from_raw` (data.rs): substitute every
character of every row against the effective geometry palette, then pad each
row to the master width with the default (Void) tile. -/
def resolvedGeometryGrid (raw : LevelDefinitionRaw) (reg : PaletteRegistry) :
    List (List ResolvedGeometryTile) :=
  raw.geometry.map fun row =>
    listResize (row.map (resolveGeometryChar (effectiveGeometryPalette raw reg) raw))
      (gridWidth raw.geometry) ResolvedGeometryTile.defaultTile

/-- The resolved ambient grid of `from_raw` (data.rs): substitute against the
effective ambient palette, pad to the ambient grid's own width (equal to the
master width whenever resolution succeeds). -/
def resolvedAmbientGrid (raw : LevelDefinitionRaw) (reg : PaletteRegistry) :
    List (List ResolvedAmbientTile) :=
  raw.ambient.map fun row =>
    listResize (row.map (resolveAmbientChar (effectiveAmbientPalette raw reg)))
      (gridWidth raw.ambient) ResolvedAmbientTile.defaultTile

/-- The resolved monster-spawn list of `from_raw` (data.rs): empty when no
monster grid was authored, otherwise the row-major scan. -/
def resolvedMonsterSpawns (raw : LevelDefinitionRaw) (reg : PaletteRegistry) :
    List ResolvedMonsterSpawn :=
  if raw.monsters = [] then []
  else monsterGridSpawns (effectiveMonsterPalette raw reg) 0 raw.monsters

/-- The resolved ceiling grid of `from_raw` (data.rs): an authored grid is
substituted against the effective ceiling palette and padded with `none`;
an absent grid is synthesized from the resolved geometry, one default
ceiling tile over every cell that has a floor. -/
def resolvedCeilingGrid (raw : LevelDefinitionRaw) (reg : PaletteRegistry) :
    List (List (Option ResolvedCeilingTile)) :=
  if raw.ceiling ≠ [] then
    raw.ceiling.map fun row =>
      listResize (row.map (resolveCeilingChar (effectiveCeilingPalette raw reg) raw))
        (gridWidth raw.geometry) none
  else
    (resolvedGeometryGrid raw reg).map fun geo_row =>
      geo_row.map fun geo_tile =>
        if geo_tile.kind.has_floor then some (defaultCeilingTile raw) else none

/-- The resolved level that `from_raw` (data.rs) returns on success. -/
def mkResolvedLevel (raw : LevelDefinitionRaw) (reg : PaletteRegistry) :
    LevelDefinition :=
  { name := raw.name
    tile_size := raw.tile_size
    default_wall_height := raw.default_wall_height
    default_floor_depth := raw.default_floor_depth
    default_ceiling_height := raw.default_ceiling_height
    default_ceiling_thickness := raw.default_ceiling_thickness
    global_ambient := raw.global_ambient
    player_start := raw.player_start
    width := gridWidth raw.geometry
    height := raw.geometry.length
    geometry := resolvedGeometryGrid raw reg
    ambient := resolvedAmbientGrid raw reg
    ceiling := resolvedCeilingGrid raw reg
    monster_spawns := resolvedMonsterSpawns raw reg
    spawn_zones := raw.spawn_zones }

/-- The first dimension check of `from_raw` (data.rs): master (geometry)
grid dimensions versus ambient grid dimensions, height being the row count
and width the maximum row length. -/
def geoAmbMismatch (raw : LevelDefinitionRaw) : Prop :=
  raw.geometry.length ≠ raw.ambient.length ∨
    gridWidth raw.geometry ≠ gridWidth raw.ambient

instance (raw : LevelDefinitionRaw) : Decidable (geoAmbMismatch raw) := by
  unfold geoAmbMismatch; infer_instance

/-- The monster-grid dimension check of `from_raw` (data.rs), performed only
when a monster grid is present. -/
def monsterMismatch (raw : LevelDefinitionRaw) : Prop :=
  raw.monsters ≠ [] ∧
    (raw.monsters.length ≠ raw.geometry.length ∨
      gridWidth raw.monsters ≠ gridWidth raw.geometry)

instance (raw : LevelDefinitionRaw) : Decidable (monsterMismatch raw) := by
  unfold monsterMismatch; infer_instance

/-- The ceiling-grid dimension check of `from_raw` (data.rs), performed only
when a ceiling grid is present. -/
def ceilingMismatch (raw : LevelDefinitionRaw) : Prop :=
  raw.ceiling ≠ [] ∧
    (raw.ceiling.length ≠ raw.geometry.length ∨
      gridWidth raw.ceiling ≠ gridWidth raw.geometry)

instance (raw : LevelDefinitionRaw) : Decidable (ceilingMismatch raw) := by
  unfold ceilingMismatch; infer_instance

/-- Source `LevelDefinition::from_raw` (data.rs): resolve a raw level description
against the palette registry, or fail with a dimension-mismatch error. The
three dimension checks occur in source order; all palette fallbacks and
character substitutions are total and are gathered in `mkResolvedLevel`. -/
def LevelDefinition.from_raw (raw : LevelDefinitionRaw)
    (palette_registry : PaletteRegistry) : Except String LevelDefinition :=
  if geoAmbMismatch raw then
    .error "Grid dimension mismatch between geometry and ambient"
  else if monsterMismatch raw then
    .error "Monster grid dimension mismatch"
  else if ceilingMismatch raw then
    .error "Ceiling grid dimension mismatch"
  else
    .ok (mkResolvedLevel raw palette_registry)

/-- The `static DEFAULT` of `get_geometry` (data.rs): Void, empty material
name, height 4.0, floor depth 0.5. -/
def oobGeometryTile : ResolvedGeometryTile :=
  { kind := .Void, material := "", height := 4, floor_depth := 1/2 }

/-- Source `LevelDefinition::get_geometry` (data.rs): geometry tile at a grid
position, the Void default when out of bounds. In-bounds indexing in the
source is plain `self.geometry[uz][ux]`; the `getD` fallback models the fact
that resolved grids always have `height` rows of `width` tiles. -/
def LevelDefinition.get_geometry (l : LevelDefinition) (x z : Int) :
    ResolvedGeometryTile :=
  if x < 0 ∨ z < 0 then oobGeometryTile
  else
    let ux := x.toNat
    let uz := z.toNat
    if l.height ≤ uz ∨ l.width ≤ ux then oobGeometryTile
    else (l.geometry[uz]?.bind fun row => row[ux]?).getD oobGeometryTile

/-- The `static DEFAULT` of `get_ambient` (data.rs): empty vectors. -/
def oobAmbientTile : ResolvedAmbientTile :=
  { lights := [], particles := [], audio := [] }

/-- Source `LevelDefinition::get_ambient` (data.rs): ambient tile at a grid position,
empty ambient when out of bounds. -/
def LevelDefinition.get_ambient (l : LevelDefinition) (x z : Int) :
    ResolvedAmbientTile :=
  if x < 0 ∨ z < 0 then oobAmbientTile
  else
    let ux := x.toNat
    let uz := z.toNat
    if l.height ≤ uz ∨ l.width ≤ ux then oobAmbientTile
    else (l.ambient[uz]?.bind fun row => row[ux]?).getD oobAmbientTile

/-- Source `LevelDefinition::get_ceiling` (data.rs): ceiling tile at a grid position,
`none` when out of bounds or open sky. -/
def LevelDefinition.get_ceiling (l : LevelDefinition) (x z : Int) :
    Option ResolvedCeilingTile :=
  if x < 0 ∨ z < 0 then none
  else
    let ux := x.toNat
    let uz := z.toNat
    if l.height ≤ uz ∨ l.width ≤ ux then none
    else (l.ceiling[uz]?.bind fun row => row[ux]?).getD none

/-- Source `LevelDefinition::grid_to_world` (data.rs): world position of the center
of a tile, as an (x, y, z) triple. -/
def LevelDefinition.grid_to_world (l : LevelDefinition) (x z : Int) : ℚ × ℚ × ℚ :=
  ((x : ℚ) * l.tile_size + l.tile_size / 2, 0,
    (z : ℚ) * l.tile_size + l.tile_size / 2)

/-- The four axis-aligned wall directions of `spawn_walls_for_tile`
(builder.rs), in source order: north, south, west, east. -/
inductive Dir where
  | north
  | south
  | west
  | east
deriving DecidableEq, Repr

/-- Neighbor offset (dx, dz) of a direction (builder.rs: north = z-1,
south = z+1, west = x-1, east = x+1). -/
def Dir.offset : Dir → Int × Int
  | .north => (0, -1)
  | .south => (0, 1)
  | .west => (-1, 0)
  | .east => (1, 0)

/-- A primitive-placement instruction emitted by the per-tile loop of
`build_level_from_data` (builder.rs). The first two arguments of each
constructor are the grid cell the loop was visiting when it spawned the
entity; `center`/`pos` and `size` are the world-space transform and cuboid
dimensions passed to `commands.spawn`, and materials are recorded by the
name they are looked up with in the `MaterialRegistry`. -/
inductive Instruction where
  | floorSlab (x z : Int) (center : ℚ × ℚ × ℚ) (size : ℚ × ℚ × ℚ) (material : String)
  | wallSeg (x z : Int) (d : Dir) (center : ℚ × ℚ × ℚ) (size : ℚ × ℚ × ℚ)
      (material : String)
  | wallCube (x z : Int) (center : ℚ × ℚ × ℚ) (size : ℚ × ℚ × ℚ) (material : String)
  | pillar (x z : Int) (center : ℚ × ℚ × ℚ) (size : ℚ × ℚ × ℚ)
  | ceilingSlab (x z : Int) (center : ℚ × ℚ × ℚ) (size : ℚ × ℚ × ℚ) (material : String)
  | pointLight (x z : Int) (pos : ℚ × ℚ × ℚ) (intensity : ℚ) (shadows : Bool)
      (color : ℚ × ℚ × ℚ) (range : ℚ)
deriving DecidableEq, Repr

/-- Source line `let wall_thickness = 0.2;` (builder.rs, `build_level_from_data`). -/
def wallThickness : ℚ := 1/5

/-- Source `needs_wall` (builder.rs): a wall is needed against a neighboring tile
exactly when that tile resolves to Void. -/
def needs_wall (level : LevelDefinition) (x z : Int) : Bool :=
  decide ((level.get_geometry x z).kind = GeometryKind.Void)

/-- Source `spawn_floor_tile` (builder.rs): one floor slab, a box extending downward
with its top surface at y = 0 and bottom at y = -floor_depth. -/
def spawn_floor_tile (level : LevelDefinition) (x z : Int) : List Instruction :=
  let geo_tile := level.get_geometry x z
  let wp := level.grid_to_world x z
  [.floorSlab x z (wp.1, -geo_tile.floor_depth / 2, wp.2.2)
    (level.tile_size, geo_tile.floor_depth, level.tile_size) geo_tile.material]

/-- Source `spawn_walls_for_tile` (builder.rs): for each of the four axis-aligned
neighbors, emit a wall segment on the shared boundary when `needs_wall`
holds there. -/
def spawn_walls_for_tile (level : LevelDefinition) (x z : Int) : List Instruction :=
  let current_tile := level.get_geometry x z
  let wall_height := current_tile.height
  let wp := level.grid_to_world x z
  let half_tile := level.tile_size / 2
  (if needs_wall level x (z - 1) then
    [.wallSeg x z .north (wp.1, wall_height / 2, wp.2.2 - half_tile)
      (level.tile_size, wall_height, wallThickness) current_tile.material]
  else []) ++
  (if needs_wall level x (z + 1) then
    [.wallSeg x z .south (wp.1, wall_height / 2, wp.2.2 + half_tile)
      (level.tile_size, wall_height, wallThickness) current_tile.material]
  else []) ++
  (if needs_wall level (x - 1) z then
    [.wallSeg x z .west (wp.1 - half_tile, wall_height / 2, wp.2.2)
      (wallThickness, wall_height, level.tile_size) current_tile.material]
  else []) ++
  (if needs_wall level (x + 1) z then
    [.wallSeg x z .east (wp.1 + half_tile, wall_height / 2, wp.2.2)
      (wallThickness, wall_height, level.tile_size) current_tile.material]
  else [])

/-- Source `spawn_wall_cube` (builder.rs): a solid cube filling the tile, bottom at
y = 0 and top at y = wall height. -/
def spawn_wall_cube (level : LevelDefinition) (x z : Int) : List Instruction :=
  let geo_tile := level.get_geometry x z
  let wp := level.grid_to_world x z
  [.wallCube x z (wp.1, geo_tile.height / 2, wp.2.2)
    (level.tile_size, geo_tile.height, level.tile_size) geo_tile.material]

/-- Source `spawn_pillar` (builder.rs): a centered column 0.4 tile wide. -/
def spawn_pillar (level : LevelDefinition) (x z : Int) : List Instruction :=
  let geo_tile := level.get_geometry x z
  let wp := level.grid_to_world x z
  let pillar_size := level.tile_size * (2/5)
  [.pillar x z (wp.1, geo_tile.height / 2, wp.2.2)
    (pillar_size, geo_tile.height, pillar_size)]

/-- The body of the per-tile loop of `build_level_from_data` (builder.rs):
geometry emission by kind (Floor and Doorway get a floor slab, Floor and
Pillar get inferred walls, Pillar also a column, Wall a solid cube, Void
nothing), then one point light per ambient light entry (particle and audio
entries only log), then a ceiling slab when the ceiling tile is present. -/
def tileInstructionsAt (level : LevelDefinition) (x z : Int) : List Instruction :=
  let geo_tile := level.get_geometry x z
  let wp := level.grid_to_world x z
  let geo_part :=
    match geo_tile.kind with
    | .Floor => spawn_floor_tile level x z ++ spawn_walls_for_tile level x z
    | .Doorway => spawn_floor_tile level x z
    | .Pillar =>
        spawn_floor_tile level x z ++ spawn_pillar level x z ++
          spawn_walls_for_tile level x z
    | .Wall => spawn_wall_cube level x z
    | .Void => []
  let ambient_tile := level.get_ambient x z
  let light_part := ambient_tile.lights.map fun light_def =>
    Instruction.pointLight x z (wp.1, wp.2.1 + light_def.height, wp.2.2)
      light_def.intensity light_def.shadows light_def.color light_def.range
  let ceiling_part :=
    match level.get_ceiling x z with
    | some ceiling_tile =>
        [Instruction.ceilingSlab x z
          (wp.1, ceiling_tile.height + ceiling_tile.thickness / 2, wp.2.2)
          (level.tile_size, ceiling_tile.thickness, level.tile_size)
          ceiling_tile.material]
    | none => []
  geo_part ++ light_part ++ ceiling_part

/-- The per-tile double loop of `build_level_from_data` (builder.rs):
`for z in 0..height { for x in 0..width { ... } }`. -/
def build_level_instructions (level : LevelDefinition) : List Instruction :=
  (List.range level.height).flatMap fun z =>
    (List.range level.width).flatMap fun x =>
      tileInstructionsAt level ((x : Nat) : Int) ((z : Nat) : Int)

/-- Rust `enum PrefabKind` (declared in data.rs per mod.rs; declaration absent from
the src snapshot). Modelled from the spec: the prefab placement record's kind
is "currently only step stairs". -/
inductive PrefabKind where
  | StepStairs
deriving DecidableEq, Repr

/-- Rust `struct PrefabInstance` (declared in data.rs per mod.rs; declaration
absent from the src snapshot). Modelled from the spec: "kind (currently only
step stairs), grid cell, rotation, from/to elevation, optional run length
in cells", with field names as used by prefabs.rs. -/
structure PrefabInstance where
  kind : PrefabKind
  position : Int × Int
  rotation : ℚ
  from_elevation : ℚ
  to_elevation : ℚ
  length : Option Nat
deriving DecidableEq, Repr

/-- One step emitted by `spawn_step_stairs` (prefabs.rs). `center_y`,
`step_height` and `step_depth` are the cuboid's vertical center and
dimensions; `local_offset_z` is the offset along the run axis before the
prefab's yaw rotation (the rotation only moves steps horizontally and is
trigonometric, so it is kept symbolic here). -/
structure StairStep where
  index : Nat
  center_y : ℚ
  step_height : ℚ
  step_depth : ℚ
  local_offset_z : ℚ
deriving DecidableEq, Repr

/-- Source line `let step_height = 0.35;` (prefabs.rs): per-step rise ceiling, bounded by
the character controller's autostep max height. -/
def maxStepRise : ℚ := 35/100

/-- Source line `let num_steps = (height_diff / step_height).ceil() as i32;` (prefabs.rs). -/
def stairNumSteps (prefab : PrefabInstance) : Int :=
  Int.ceil ((prefab.to_elevation - prefab.from_elevation) / maxStepRise)

/-- Source line `let actual_step_height = height_diff / num_steps as f32;` (prefabs.rs). -/
def stairRise (prefab : PrefabInstance) : ℚ :=
  (prefab.to_elevation - prefab.from_elevation) / (stairNumSteps prefab : ℚ)

/-- Source `spawn_step_stairs` (prefabs.rs): divide the elevation difference into
`ceil(height_diff / 0.35)` equal steps; zero or negative difference produces
no steps (logged as a warning in the source, not a crash). -/
def spawn_step_stairs (prefab : PrefabInstance) (tile_size : ℚ) : List StairStep :=
  let length_tiles : ℚ := (prefab.length.getD 1 : Nat)
  let total_length := length_tiles * tile_size
  if stairNumSteps prefab ≤ 0 then []
  else
    let actual_step_height := stairRise prefab
    let step_depth := total_length / (stairNumSteps prefab : ℚ)
    (List.range (stairNumSteps prefab).toNat).map fun i =>
      { index := i
        center_y := prefab.from_elevation + ((i : ℚ) + 1/2) * actual_step_height
        step_height := actual_step_height
        step_depth := step_depth
        local_offset_z := ((i : ℚ) + 1/2) * step_depth - total_length / 2 }

/-- Source `spawn_floor_tile` of the refactored geometry module (geometry.rs): the
same floor slab but with its top surface at `geo_tile.elevation`. The tile
record it reads is the spec's geometry tile. Modelled from the spec: the
geometry-tile `elevation` field read by geometry.rs line 21 is absent from
the `ResolvedGeometryTile` declared in the data.rs of the src snapshot; the
spec's data model lists "elevation" among the geometry-tile fields. -/
structure GeometryTileSpec where
  kind : GeometryKind
  material : String
  height : ℚ
  floor_depth : ℚ
  elevation : ℚ
deriving DecidableEq, Repr

/-- The cuboid spawned by `spawn_floor_tile` (geometry.rs): world-space
center, dimensions and floor material. -/
structure FloorSlabSpec where
  center : ℚ × ℚ × ℚ
  size : ℚ × ℚ × ℚ
  material : String
deriving DecidableEq, Repr

/-- Source `spawn_floor_tile` (geometry.rs): floor slab as a box extending downward
from the tile's elevation, top surface at y = elevation and bottom at
y = elevation - floor_depth. -/
def spawn_floor_tile_geometry (wp : ℚ × ℚ × ℚ) (tile_size : ℚ)
    (geo_tile : GeometryTileSpec) : FloorSlabSpec :=
  { center := (wp.1, geo_tile.elevation - geo_tile.floor_depth / 2, wp.2.2)
    size := (tile_size, geo_tile.floor_depth, tile_size)
    material := geo_tile.material }

/-! ### Basic lemmas about the grid helpers -/

theorem listResize_length (l : List α) (n : Nat) (d : α) :
    (listResize l n d).length = n := by
  simp only [listResize, List.length_append, List.length_take, List.length_replicate]
  omega

theorem listResize_getElem? (l : List α) (n : Nat) (d : α) (i : Nat) (hi : i < n) :
    (listResize l n d)[i]? = some (l[i]?.getD d) := by
  unfold listResize
  rcases Nat.lt_or_ge i l.length with h | h
  · rw [List.getElem?_append, if_pos (by simp [List.length_take]; omega),
      List.getElem?_take, if_pos hi, List.getElem?_eq_getElem h]
    simp
  · rw [List.getElem?_append, if_neg (by simp [List.length_take]; omega),
      List.getElem?_replicate, if_pos (by simp [List.length_take]; omega)]
    rw [List.getElem?_eq_none h]
    simp

theorem from_raw_eq_ok_iff (raw : LevelDefinitionRaw) (reg : PaletteRegistry)
    (level : LevelDefinition) :
    LevelDefinition.from_raw raw reg = .ok level ↔
      (¬geoAmbMismatch raw ∧ ¬monsterMismatch raw ∧ ¬ceilingMismatch raw ∧
        level = mkResolvedLevel raw reg) := by
  unfold LevelDefinition.from_raw
  split_ifs with h1 h2 h3
  · simp_all
  · simp_all
  · simp_all
  · simp_all [eq_comm]

theorem from_raw_eq_error_iff (raw : LevelDefinitionRaw) (reg : PaletteRegistry) :
    (∃ e, LevelDefinition.from_raw raw reg = .error e) ↔
      (geoAmbMismatch raw ∨ monsterMismatch raw ∨ ceilingMismatch raw) := by
  unfold LevelDefinition.from_raw
  split_ifs with h1 h2 h3
  · simp_all
  · simp_all
  · simp_all
  · simp_all

/-! ### C1: resolution errors are exactly the three dimension mismatches -/

/-- The 10-wide, 5-row geometry/ambient and 10-wide, 4-row monster grids of
the mismatched-monster-grid scenario. -/
def c1raw : LevelDefinitionRaw :=
  { name := "scenario", tile_size := 2, default_wall_height := 4,
    default_floor_depth := 1/2, default_ceiling_height := 4,
    default_ceiling_thickness := 3/10,
    global_ambient := ⟨(2/5, 2/5, 1/2), 30⟩, player_start := (0, 0),
    geometry_palette_file := none, ambient_palette_file := none,
    monster_palette_file := none, ceiling_palette_file := none,
    geometry_palette := [], ambient_palette := [], monster_palette := [],
    ceiling_palette := [],
    geometry := List.replicate 5 (List.replicate 10 '.'),
    ambient := List.replicate 5 (List.replicate 10 '.'),
    monsters := List.replicate 4 (List.replicate 10 '.'),
    ceiling := [], spawn_zones := [] }

/-- An empty palette registry. -/
def emptyRegistry : PaletteRegistry := ⟨[], [], [], []⟩

/-- C1: `LevelDefinition::from_raw` returns an error exactly when the
geometry/ambient dimensions disagree, or a non-empty monster grid's
dimensions differ from geometry's, or a non-empty ceiling grid's dimensions
differ from geometry's; every other input yields a resolved model. In
particular a 10×5 geometry grid with a 10×4 monster grid yields an error
and no model. -/
theorem spec_C1 :
    (∀ (raw : LevelDefinitionRaw) (reg : PaletteRegistry),
      ((∃ e, LevelDefinition.from_raw raw reg = .error e) ↔
        (geoAmbMismatch raw ∨ monsterMismatch raw ∨ ceilingMismatch raw)) ∧
      ((∃ level, LevelDefinition.from_raw raw reg = .ok level) ↔
        ¬(geoAmbMismatch raw ∨ monsterMismatch raw ∨ ceilingMismatch raw))) ∧
    (∃ e, LevelDefinition.from_raw c1raw emptyRegistry = .error e) ∧
    (∀ level, LevelDefinition.from_raw c1raw emptyRegistry ≠ .ok level) := by
  have key : ∀ (raw : LevelDefinitionRaw) (reg : PaletteRegistry),
      ((∃ e, LevelDefinition.from_raw raw reg = .error e) ↔
        (geoAmbMismatch raw ∨ monsterMismatch raw ∨ ceilingMismatch raw)) ∧
      ((∃ level, LevelDefinition.from_raw raw reg = .ok level) ↔
        ¬(geoAmbMismatch raw ∨ monsterMismatch raw ∨ ceilingMismatch raw)) := by
    intro raw reg
    refine ⟨from_raw_eq_error_iff raw reg, ?_⟩
    constructor
    · rintro ⟨level, hl⟩
      have := (from_raw_eq_ok_iff raw reg level).mp hl
      tauto
    · intro h
      exact ⟨mkResolvedLevel raw reg,
        (from_raw_eq_ok_iff raw reg _).mpr (by tauto)⟩
  refine ⟨key, ?_, ?_⟩
  · exact (from_raw_eq_error_iff c1raw emptyRegistry).mpr (by
      right; left
      refine ⟨by decide, Or.inl (by decide)⟩)
  · intro level hl
    have := (from_raw_eq_ok_iff c1raw emptyRegistry level).mp hl
    exact absurd ⟨by decide, Or.inl (by decide)⟩ this.2.1

/-! ### C5: out-of-bounds accessor contract -/

/-- C5: for any resolved level model and any coordinate outside
`[0,width)×[0,height)` (negative coordinates included), `get_geometry`
returns the Void default, `get_ambient` an ambient tile with no lights,
particles or audio, and `get_ceiling` returns `None`; all three accessors
are total. -/
theorem spec_C5 (l : LevelDefinition) (x z : Int)
    (h : x < 0 ∨ z < 0 ∨ (l.width : Int) ≤ x ∨ (l.height : Int) ≤ z) :
    (l.get_geometry x z).kind = GeometryKind.Void ∧
      l.get_geometry x z = oobGeometryTile ∧
      l.get_ambient x z = oobAmbientTile ∧
      (l.get_ambient x z).lights = [] ∧
      (l.get_ambient x z).particles = [] ∧
      (l.get_ambient x z).audio = [] ∧
      l.get_ceiling x z = none := by
  have main : l.get_geometry x z = oobGeometryTile ∧
      l.get_ambient x z = oobAmbientTile ∧ l.get_ceiling x z = none := by
    unfold LevelDefinition.get_geometry LevelDefinition.get_ambient
      LevelDefinition.get_ceiling
    by_cases hneg : x < 0 ∨ z < 0
    · simp only [if_pos hneg]
      simp
    · push_neg at hneg
      have hcond : l.height ≤ z.toNat ∨ l.width ≤ x.toNat := by omega
      have houter : ¬(x < 0 ∨ z < 0) := by omega
      simp only [if_neg houter, if_pos hcond]
      simp
  refine ⟨?_, main.1, main.2.1, ?_, ?_, ?_, main.2.2⟩ <;>
    simp [main.1, main.2.1, oobGeometryTile, oobAmbientTile]

/-- A small concrete resolved level model for instantiating `spec_C5`. -/
def c5level : LevelDefinition :=
  { name := "w", tile_size := 2, default_wall_height := 4,
    default_floor_depth := 1/2, default_ceiling_height := 4,
    default_ceiling_thickness := 3/10,
    global_ambient := ⟨(2/5, 2/5, 1/2), 30⟩, player_start := (0, 0),
    width := 2, height := 1,
    geometry := [[ResolvedGeometryTile.defaultTile, ResolvedGeometryTile.defaultTile]],
    ambient := [[ResolvedAmbientTile.defaultTile, ResolvedAmbientTile.defaultTile]],
    ceiling := [[none, none]],
    monster_spawns := [], spawn_zones := [] }

theorem spec_C5_witness :
    ((-1 : Int) < 0 ∨ (0 : Int) < 0 ∨ (c5level.width : Int) ≤ -1 ∨
      (c5level.height : Int) ≤ 0) ∧
    ((c5level.get_geometry (-1) 0).kind = GeometryKind.Void ∧
      c5level.get_geometry (-1) 0 = oobGeometryTile ∧
      c5level.get_ambient (-1) 0 = oobAmbientTile ∧
      (c5level.get_ambient (-1) 0).lights = [] ∧
      (c5level.get_ambient (-1) 0).particles = [] ∧
      (c5level.get_ambient (-1) 0).audio = [] ∧
      c5level.get_ceiling (-1) 0 = none) :=
  ⟨Or.inl (by decide), spec_C5 c5level (-1) 0 (Or.inl (by decide))⟩

/-! ### C4: the stair prefab generator -/

/-- The even-division stair property for a positive elevation difference:
the step count is `ceil(height_diff / max_step_rise)`, every step rises by
`height_diff / num_steps`, step `i`'s vertical center is
`from_elevation + (i + 0.5) * actual_step_rise`, and the top of the top step
lands exactly on `to_elevation`. -/
def stairStepsCorrect (prefab : PrefabInstance) (tile_size : ℚ) : Prop :=
  (spawn_step_stairs prefab tile_size).length = (stairNumSteps prefab).toNat ∧
  1 ≤ stairNumSteps prefab ∧
  (∀ s ∈ spawn_step_stairs prefab tile_size,
    s.step_height = stairRise prefab ∧
    s.center_y = prefab.from_elevation + ((s.index : ℚ) + 1/2) * stairRise prefab) ∧
  prefab.from_elevation + (stairNumSteps prefab : ℚ) * stairRise prefab =
    prefab.to_elevation

/-- A zero or negative step count is exactly a zero or negative elevation
difference (the guard case of `spawn_step_stairs`). -/
theorem stairNumSteps_nonpos_iff (prefab : PrefabInstance) :
    stairNumSteps prefab ≤ 0 ↔
      prefab.to_elevation - prefab.from_elevation ≤ 0 := by
  have hc : (0 : ℚ) < maxStepRise := by norm_num [maxStepRise]
  unfold stairNumSteps
  rw [show (0 : Int) = ((0 : Int)) from rfl, Int.ceil_le, Int.cast_zero,
    div_le_iff₀ hc, zero_mul]

/-- The concrete stair scenario: from elevation 0 to elevation 1.4. -/
def c4prefab : PrefabInstance :=
  { kind := .StepStairs, position := (0, 0), rotation := 0,
    from_elevation := 0, to_elevation := 7/5, length := some 2 }

/-- C4: the stair generator computes `num_steps = ceil(height_diff / 0.35)`;
a zero or negative height difference yields no steps (warned, not crashed);
otherwise steps are evenly divided, step `i`'s vertical center is
`from + (i + 0.5) * actual_step_rise` and the top step lands exactly on
`to_elevation`; for `from = 0, to = 1.4` there are exactly 4 steps and the
top step's center height is `1.4 - actual_step_rise / 2`. -/
theorem spec_C4 (prefab : PrefabInstance) (tile_size : ℚ) :
    stairNumSteps prefab =
      Int.ceil ((prefab.to_elevation - prefab.from_elevation) / maxStepRise) ∧
    (spawn_step_stairs prefab tile_size = [] ↔
      prefab.to_elevation - prefab.from_elevation ≤ 0) ∧
    (0 < prefab.to_elevation - prefab.from_elevation →
      stairStepsCorrect prefab tile_size) ∧
    (spawn_step_stairs c4prefab 2).length = 4 ∧
    (spawn_step_stairs c4prefab 2).getLast?.map StairStep.center_y =
      some (7/5 - (7/20) / 2) := by
  have hc : (0 : ℚ) < maxStepRise := by norm_num [maxStepRise]
  have h4 : stairNumSteps c4prefab = 4 := by
    rw [stairNumSteps]
    norm_num [c4prefab, maxStepRise, Int.ceil_eq_iff]
  have hguard4 : ¬(stairNumSteps c4prefab ≤ 0) := by rw [h4]; norm_num
  refine ⟨rfl, ?_, ?_, ?_, ?_⟩
  · by_cases hn : stairNumSteps prefab ≤ 0
    · rw [spawn_step_stairs, if_pos hn]
      simpa using (stairNumSteps_nonpos_iff prefab).mp hn
    · rw [spawn_step_stairs, if_neg hn]
      have h1 : ¬(prefab.to_elevation - prefab.from_elevation ≤ 0) :=
        fun hd => hn ((stairNumSteps_nonpos_iff prefab).mpr hd)
      have h2 : (stairNumSteps prefab).toNat ≠ 0 := by omega
      simp only [iff_false_intro h1, iff_false]
      intro hemp
      have := congrArg List.length hemp
      simp at this
      omega
  · intro hpos
    have hnum : 1 ≤ stairNumSteps prefab := by
      have := (stairNumSteps_nonpos_iff prefab).mpr
      by_contra hlt
      push_neg at hlt
      have hle : stairNumSteps prefab ≤ 0 := by omega
      exact absurd ((stairNumSteps_nonpos_iff prefab).mp hle) (by linarith)
    have hguard : ¬(stairNumSteps prefab ≤ 0) := by omega
    have hnz : ((stairNumSteps prefab : Int) : ℚ) ≠ 0 := by
      exact_mod_cast (by omega : stairNumSteps prefab ≠ 0)
    refine ⟨?_, hnum, ?_, ?_⟩
    · rw [spawn_step_stairs, if_neg hguard]
      simp
    · intro s hs
      rw [spawn_step_stairs, if_neg hguard] at hs
      rcases List.mem_map.mp hs with ⟨i, _, rfl⟩
      exact ⟨rfl, rfl⟩
    · have hmul : ((stairNumSteps prefab : Int) : ℚ) * stairRise prefab =
          prefab.to_elevation - prefab.from_elevation := by
        rw [stairRise]
        field_simp
      linarith
  · rw [spawn_step_stairs, if_neg hguard4, h4]
    simp
  · have hval : (spawn_step_stairs c4prefab 2).getLast?.map StairStep.center_y =
        some (c4prefab.from_elevation + (((3 : ℕ) : ℚ) + 1/2) * stairRise c4prefab) := by
      rw [spawn_step_stairs, if_neg hguard4, h4]
      rfl
    rw [hval, stairRise, h4]
    norm_num [c4prefab]

theorem spec_C4_witness :
    0 < c4prefab.to_elevation - c4prefab.from_elevation ∧
      stairStepsCorrect c4prefab 2 :=
  ⟨by norm_num [c4prefab], (spec_C4 c4prefab 2).2.2.1 (by norm_num [c4prefab])⟩

/-! ### Cell-level lemmas about the resolved grids -/

theorem gridWidth_cons (r : List Char) (g : List (List Char)) :
    gridWidth (r :: g) = max r.length (gridWidth g) := rfl

theorem row_length_le_gridWidth (g : List (List Char)) :
    ∀ row ∈ g, row.length ≤ gridWidth g := by
  induction g with
  | nil => intro row h; simp at h
  | cons r rest ih =>
      intro row h
      rcases List.mem_cons.mp h with rfl | h
      · rw [gridWidth_cons]; exact le_max_left _ _
      · rw [gridWidth_cons]; exact le_trans (ih row h) (le_max_right _ _)

theorem rawCell_bounds {g : List (List Char)} {z x : Nat} {c : Char}
    (h : (g[z]?.getD [])[x]? = some c) :
    z < g.length ∧ x < gridWidth g := by
  have hz : z < g.length := by
    by_contra hz
    push_neg at hz
    rw [List.getElem?_eq_none hz] at h
    simp at h
  refine ⟨hz, ?_⟩
  rw [List.getElem?_eq_getElem hz] at h
  simp only [Option.getD_some] at h
  have hx : x < g[z].length := by
    by_contra hx
    push_neg at hx
    rw [List.getElem?_eq_none hx] at h
    simp at h
  exact lt_of_lt_of_le hx (row_length_le_gridWidth g _ (List.getElem_mem hz))

theorem mappedGrid_cell {α β : Type _} (g : List (List α)) (f : α → β) (w : Nat)
    (d : β) (z x : Nat) (hz : z < g.length) (hx : x < w) :
    ((g.map fun row => listResize (row.map f) w d)[z]?.bind fun row => row[x]?) =
      some (((g[z]?.getD [])[x]?.map f).getD d) := by
  rw [List.getElem?_map, List.getElem?_eq_getElem hz]
  simp only [Option.map_some', Option.some_bind, Option.getD_some]
  rw [listResize_getElem? _ _ _ _ hx, List.getElem?_map]

theorem mapGrid_cell {α β : Type _} (g : List (List α)) (f : α → β) (z x : Nat) :
    ((g.map (List.map f))[z]?.bind fun row => row[x]?) =
      ((g[z]?.bind fun row => row[x]?).map f) := by
  cases hr : g[z]? with
  | none => simp [List.getElem?_map, hr]
  | some row => simp [List.getElem?_map, hr]

theorem from_raw_dims (raw : LevelDefinitionRaw) (h : ¬geoAmbMismatch raw) :
    raw.ambient.length = raw.geometry.length ∧
      gridWidth raw.ambient = gridWidth raw.geometry := by
  unfold geoAmbMismatch at h
  push_neg at h
  exact ⟨h.1.symm, h.2.symm⟩

/-! ### C2: geometry and ambient layer resolution -/

/-- The cell-level description of the resolved geometry and ambient grids:
exactly `height` rows of `width` tiles, each cell the palette substitution of
its character (effective catalog, default on a missing character), rows
padded with defaults up to the master width. -/
def ResolvedGridsSpec (raw : LevelDefinitionRaw) (reg : PaletteRegistry)
    (level : LevelDefinition) : Prop :=
  level.width = gridWidth raw.geometry ∧
  level.height = raw.geometry.length ∧
  level.geometry.length = level.height ∧
  (∀ row ∈ level.geometry, row.length = level.width) ∧
  level.ambient.length = level.height ∧
  (∀ row ∈ level.ambient, row.length = level.width) ∧
  (∀ z x, z < level.height → x < level.width →
    (level.geometry[z]?.bind fun row => row[x]?) =
      some (((raw.geometry[z]?.getD [])[x]?.map
        (resolveGeometryChar (effectiveGeometryPalette raw reg) raw)).getD
        ResolvedGeometryTile.defaultTile)) ∧
  (∀ z x, z < level.height → x < level.width →
    (level.ambient[z]?.bind fun row => row[x]?) =
      some (((raw.ambient[z]?.getD [])[x]?.map
        (resolveAmbientChar (effectiveAmbientPalette raw reg))).getD
        ResolvedAmbientTile.defaultTile))

/-- The missing-external-catalog scenario: the level names external geometry
catalog "dungeon.ron", absent from the registry, and supplies an inline
catalog mapping '#' to a Wall tile. -/
def c2raw : LevelDefinitionRaw :=
  { name := "fallback", tile_size := 2, default_wall_height := 4,
    default_floor_depth := 1/2, default_ceiling_height := 4,
    default_ceiling_thickness := 3/10,
    global_ambient := ⟨(2/5, 2/5, 1/2), 30⟩, player_start := (0, 0),
    geometry_palette_file := some "dungeon.ron", ambient_palette_file := none,
    monster_palette_file := none, ceiling_palette_file := none,
    geometry_palette := [('#', ⟨.Wall, none, none, none⟩)],
    ambient_palette := [], monster_palette := [], ceiling_palette := [],
    geometry := [['#']],
    ambient := [['.']],
    monsters := [], ceiling := [], spawn_zones := [] }

/-- C2: every geometry character is substituted against the effective catalog
(external if present in the store, otherwise inline), unknown characters
resolve to the Void default, rows are padded to the master width, and the
ambient layer behaves the same with the empty ambient default, so both
resolved grids are exactly height × width; a level referencing a missing
external geometry catalog with inline '#' → Wall resolves successfully and
its '#' cell becomes a Wall tile. -/
theorem spec_C2 (raw : LevelDefinitionRaw) (reg : PaletteRegistry)
    (level : LevelDefinition)
    (h : LevelDefinition.from_raw raw reg = .ok level) :
    ResolvedGridsSpec raw reg level ∧
    emptyRegistry.get_geometry "dungeon.ron" = none ∧
    LevelDefinition.from_raw c2raw emptyRegistry =
      .ok (mkResolvedLevel c2raw emptyRegistry) ∧
    ((mkResolvedLevel c2raw emptyRegistry).get_geometry 0 0).kind =
      GeometryKind.Wall := by
  obtain ⟨h1, h2, h3, rfl⟩ := (from_raw_eq_ok_iff raw reg level).mp h
  obtain ⟨hlen, hwid⟩ := from_raw_dims raw h1
  refine ⟨⟨rfl, rfl, ?_, ?_, ?_, ?_, ?_, ?_⟩, by decide, ?_, by decide⟩
  · simp [mkResolvedLevel, resolvedGeometryGrid]
  · intro row hrow
    rcases List.mem_map.mp hrow with ⟨r, _, rfl⟩
    exact listResize_length _ _ _
  · simp [mkResolvedLevel, resolvedAmbientGrid, hlen]
  · intro row hrow
    rcases List.mem_map.mp hrow with ⟨r, _, rfl⟩
    rw [listResize_length, hwid]
    rfl
  · intro z x hz hx
    exact mappedGrid_cell raw.geometry _ _ _ z x hz hx
  · intro z x hz hx
    have hz2 : z < raw.ambient.length := by
      simpa [hlen] using hz
    have hx2 : x < gridWidth raw.ambient := by
      simpa [hwid] using hx
    exact mappedGrid_cell raw.ambient _ _ _ z x hz2 hx2
  · exact (from_raw_eq_ok_iff c2raw emptyRegistry _).mpr
      ⟨by decide, by decide, by decide, rfl⟩

theorem spec_C2_witness :
    LevelDefinition.from_raw c2raw emptyRegistry =
      .ok (mkResolvedLevel c2raw emptyRegistry) ∧
    ResolvedGridsSpec c2raw emptyRegistry (mkResolvedLevel c2raw emptyRegistry) := by
  have h : LevelDefinition.from_raw c2raw emptyRegistry =
      .ok (mkResolvedLevel c2raw emptyRegistry) :=
    (from_raw_eq_ok_iff c2raw emptyRegistry _).mpr
      ⟨by decide, by decide, by decide, rfl⟩
  exact ⟨h, (spec_C2 c2raw emptyRegistry _ h).1⟩

/-! ### C6: ceiling synthesis when no ceiling grid is authored -/

/-- The synthesized ceiling: exactly height × width, a default ceiling tile
(material "ceiling", level-wide height and thickness) over every geometry
cell with a floor, `none` elsewhere. -/
def CeilingSynthSpec (raw : LevelDefinitionRaw) (level : LevelDefinition) : Prop :=
  level.ceiling.length = level.height ∧
  (∀ row ∈ level.ceiling, row.length = level.width) ∧
  ∀ z x, z < level.height → x < level.width →
    ∃ t : ResolvedGeometryTile,
      (level.geometry[z]?.bind fun row => row[x]?) = some t ∧
      (level.ceiling[z]?.bind fun row => row[x]?) =
        some (if t.kind.has_floor then some (defaultCeilingTile raw) else none)

/-- C6: when the raw level supplies no ceiling grid, the resolved ceiling
grid has a present tile — material "ceiling" with the level's default
ceiling height and thickness — exactly at cells whose geometry kind is
Floor, Pillar or Doorway, and `None` everywhere else. -/
theorem spec_C6 (raw : LevelDefinitionRaw) (reg : PaletteRegistry)
    (level : LevelDefinition)
    (h : LevelDefinition.from_raw raw reg = .ok level)
    (hceil : raw.ceiling = []) :
    CeilingSynthSpec raw level := by
  obtain ⟨h1, h2, h3, rfl⟩ := (from_raw_eq_ok_iff raw reg level).mp h
  have hgrid : resolvedCeilingGrid raw reg =
      (resolvedGeometryGrid raw reg).map
        (List.map fun geo_tile =>
          if geo_tile.kind.has_floor then some (defaultCeilingTile raw) else none) := by
    rw [resolvedCeilingGrid, if_neg (by simp [hceil])]
  refine ⟨?_, ?_, ?_⟩
  · show (resolvedCeilingGrid raw reg).length = _
    rw [hgrid]
    simp [mkResolvedLevel, resolvedGeometryGrid]
  · intro row hrow
    have hrow2 : row ∈ resolvedCeilingGrid raw reg := hrow
    rw [hgrid] at hrow2
    rcases List.mem_map.mp hrow2 with ⟨r, hr, rfl⟩
    show (List.map _ r).length = gridWidth raw.geometry
    rw [List.length_map]
    rcases List.mem_map.mp hr with ⟨r0, _, rfl⟩
    exact listResize_length _ _ _
  · intro z x hz hx
    have hcell : ((resolvedGeometryGrid raw reg)[z]?.bind fun row => row[x]?) =
        some (((raw.geometry[z]?.getD [])[x]?.map
          (resolveGeometryChar (effectiveGeometryPalette raw reg) raw)).getD
          ResolvedGeometryTile.defaultTile) :=
      mappedGrid_cell raw.geometry
        (resolveGeometryChar (effectiveGeometryPalette raw reg) raw)
        (gridWidth raw.geometry) ResolvedGeometryTile.defaultTile z x hz hx
    refine ⟨_, hcell, ?_⟩
    show (resolvedCeilingGrid raw reg)[z]?.bind _ = _
    rw [hgrid, mapGrid_cell]
    show ((resolvedGeometryGrid raw reg)[z]?.bind fun row => row[x]?).map _ = _
    rw [hcell]
    rfl

/-- A level with one Floor cell and one unknown cell, no authored ceiling. -/
def c6raw : LevelDefinitionRaw :=
  { name := "synth", tile_size := 2, default_wall_height := 4,
    default_floor_depth := 1/2, default_ceiling_height := 4,
    default_ceiling_thickness := 3/10,
    global_ambient := ⟨(2/5, 2/5, 1/2), 30⟩, player_start := (0, 0),
    geometry_palette_file := none, ambient_palette_file := none,
    monster_palette_file := none, ceiling_palette_file := none,
    geometry_palette := [('F', ⟨.Floor, none, none, none⟩)],
    ambient_palette := [], monster_palette := [], ceiling_palette := [],
    geometry := [['F', '.']],
    ambient := [['.', '.']],
    monsters := [], ceiling := [], spawn_zones := [] }

theorem spec_C6_witness :
    LevelDefinition.from_raw c6raw emptyRegistry =
      .ok (mkResolvedLevel c6raw emptyRegistry) ∧
    c6raw.ceiling = [] ∧
    CeilingSynthSpec c6raw (mkResolvedLevel c6raw emptyRegistry) := by
  have h : LevelDefinition.from_raw c6raw emptyRegistry =
      .ok (mkResolvedLevel c6raw emptyRegistry) :=
    (from_raw_eq_ok_iff c6raw emptyRegistry _).mpr
      ⟨by decide, by decide, by decide, rfl⟩
  exact ⟨h, rfl, spec_C6 c6raw emptyRegistry _ h rfl⟩

/-! ### C10: unknown characters in an authored ceiling grid -/

/-- C10: in an authored ceiling grid, a character other than '.' and ' '
that is absent from the effective ceiling catalog resolves to a present
ceiling tile with material "ceiling" and the level's default ceiling height
and thickness. -/
theorem spec_C10 (raw : LevelDefinitionRaw) (reg : PaletteRegistry)
    (level : LevelDefinition)
    (h : LevelDefinition.from_raw raw reg = .ok level)
    (hne : raw.ceiling ≠ [])
    (z x : Nat) (c : Char)
    (hc : (raw.ceiling[z]?.getD [])[x]? = some c)
    (hblank : ¬(c = '.' ∨ c = ' '))
    (hmiss : (effectiveCeilingPalette raw reg).lookup c = none) :
    (level.ceiling[z]?.bind fun row => row[x]?) =
      some (some (defaultCeilingTile raw)) := by
  obtain ⟨h1, h2, h3, rfl⟩ := (from_raw_eq_ok_iff raw reg level).mp h
  obtain ⟨hz, hx⟩ := rawCell_bounds hc
  have hdims : raw.ceiling.length = raw.geometry.length ∧
      gridWidth raw.ceiling = gridWidth raw.geometry := by
    unfold ceilingMismatch at h3
    push_neg at h3
    exact (h3 hne)
  show (resolvedCeilingGrid raw reg)[z]?.bind _ = _
  rw [resolvedCeilingGrid, if_pos hne]
  rw [mappedGrid_cell raw.ceiling _ _ _ z x hz (by omega), hc]
  simp only [Option.map_some', Option.getD_some]
  simp only [resolveCeilingChar, if_neg hblank, hmiss]
  rfl

/-- A level with an authored ceiling grid containing the unknown character
'X' and an empty ceiling catalog. -/
def c10raw : LevelDefinitionRaw :=
  { name := "ceil", tile_size := 2, default_wall_height := 4,
    default_floor_depth := 1/2, default_ceiling_height := 4,
    default_ceiling_thickness := 3/10,
    global_ambient := ⟨(2/5, 2/5, 1/2), 30⟩, player_start := (0, 0),
    geometry_palette_file := none, ambient_palette_file := none,
    monster_palette_file := none, ceiling_palette_file := none,
    geometry_palette := [('F', ⟨.Floor, none, none, none⟩)],
    ambient_palette := [], monster_palette := [], ceiling_palette := [],
    geometry := [['F']],
    ambient := [['.']],
    monsters := [], ceiling := [['X']], spawn_zones := [] }

theorem spec_C10_witness :
    LevelDefinition.from_raw c10raw emptyRegistry =
      .ok (mkResolvedLevel c10raw emptyRegistry) ∧
    c10raw.ceiling ≠ [] ∧
    (c10raw.ceiling[0]?.getD [])[0]? = some 'X' ∧
    ¬('X' = '.' ∨ 'X' = ' ') ∧
    (effectiveCeilingPalette c10raw emptyRegistry).lookup 'X' = none ∧
    ((mkResolvedLevel c10raw emptyRegistry).ceiling[0]?.bind fun row => row[0]?) =
      some (some (defaultCeilingTile c10raw)) := by
  have h : LevelDefinition.from_raw c10raw emptyRegistry =
      .ok (mkResolvedLevel c10raw emptyRegistry) :=
    (from_raw_eq_ok_iff c10raw emptyRegistry _).mpr
      ⟨by decide, by decide, by decide, rfl⟩
  exact ⟨h, by decide, by decide, by decide, by decide,
    spec_C10 c10raw emptyRegistry _ h (by decide) 0 0 'X' (by decide) (by decide)
      (by decide)⟩

/-! ### C7: the resolved monster-spawn list -/

/-- Row-major order on spawn records: strictly increasing Z, then X. -/
def spawnRowMajorLt (a b : ResolvedMonsterSpawn) : Prop :=
  a.grid_pos.2 < b.grid_pos.2 ∨
    (a.grid_pos.2 = b.grid_pos.2 ∧ a.grid_pos.1 < b.grid_pos.1)

theorem mem_monsterCellSpawn {pal : List (Char × String)} {z x : Nat} {c : Char}
    {s : ResolvedMonsterSpawn} :
    s ∈ monsterCellSpawn pal z x c ↔
      (c ≠ '.' ∧ c ≠ ' ' ∧ pal.lookup c = some s.enemy_type ∧
        s.grid_pos = ((x : Int), (z : Int))) := by
  rcases s with ⟨sp, se⟩
  unfold monsterCellSpawn
  split_ifs with hb
  · cases hl : pal.lookup c with
    | none => simp [hl, hb.1, hb.2]
    | some e =>
        simp only [hl, List.mem_singleton, ResolvedMonsterSpawn.mk.injEq,
          Option.some.injEq, hb.1, hb.2, ne_eq, not_false_iff, true_and]
        tauto
  · push_neg at hb
    simp only [List.not_mem_nil, false_iff, not_and]
    intro h1 h2
    exact absurd (hb h1) h2

theorem mem_monsterRowSpawns {pal : List (Char × String)} {z : Nat}
    {s : ResolvedMonsterSpawn} (row : List Char) (x : Nat) :
    s ∈ monsterRowSpawns pal z x row ↔
      ∃ (i : Nat) (c : Char), row[i]? = some c ∧ c ≠ '.' ∧ c ≠ ' ' ∧
        pal.lookup c = some s.enemy_type ∧
        s.grid_pos = (((x + i : Nat) : Int), (z : Int)) := by
  induction row generalizing x with
  | nil => simp [monsterRowSpawns]
  | cons c rest ih =>
      rw [monsterRowSpawns, List.mem_append, mem_monsterCellSpawn, ih (x + 1)]
      constructor
      · rintro (⟨hb1, hb2, hl, hp⟩ | ⟨i, c2, hc2, h1, h2, h3, h4⟩)
        · exact ⟨0, c, by simp, hb1, hb2, hl, by simpa using hp⟩
        · refine ⟨i + 1, c2, by simpa using hc2, h1, h2, h3, ?_⟩
          rw [h4]
          have : x + 1 + i = x + (i + 1) := by omega
          rw [this]
      · rintro ⟨i, c2, hc2, h1, h2, h3, h4⟩
        cases i with
        | zero =>
            left
            have hcc : c = c2 := by simpa using hc2
            subst hcc
            exact ⟨h1, h2, h3, by simpa using h4⟩
        | succ i =>
            right
            refine ⟨i, c2, by simpa using hc2, h1, h2, h3, ?_⟩
            rw [h4]
            have : x + (i + 1) = x + 1 + i := by omega
            rw [this]

theorem monsterRowSpawns_pos {pal : List (Char × String)} {z : Nat}
    (row : List Char) (x : Nat) :
    ∀ s ∈ monsterRowSpawns pal z x row,
      s.grid_pos.2 = (z : Int) ∧ (x : Int) ≤ s.grid_pos.1 := by
  intro s hs
  rcases (mem_monsterRowSpawns row x).mp hs with ⟨i, c, _, _, _, _, h4⟩
  rw [h4]
  constructor
  · rfl
  · show (x : Int) ≤ ((x + i : Nat) : Int)
    push_cast
    omega

theorem monsterRowSpawns_pairwise {pal : List (Char × String)} {z : Nat}
    (row : List Char) (x : Nat) :
    (monsterRowSpawns pal z x row).Pairwise
      (fun a b => a.grid_pos.1 < b.grid_pos.1) := by
  induction row generalizing x with
  | nil => simp [monsterRowSpawns]
  | cons c rest ih =>
      rw [monsterRowSpawns, List.pairwise_append]
      refine ⟨?_, ih (x + 1), ?_⟩
      · unfold monsterCellSpawn
        split_ifs
        · cases pal.lookup c <;> simp
        · simp
      · intro a ha b hb
        have ha2 := (mem_monsterCellSpawn.mp ha).2.2.2
        have hb2 := (monsterRowSpawns_pos rest (x + 1) b hb).2
        rw [ha2]
        show (x : Int) < b.grid_pos.1
        push_cast at hb2
        omega

theorem mem_monsterGridSpawns {pal : List (Char × String)}
    {s : ResolvedMonsterSpawn} (rows : List (List Char)) (z : Nat) :
    s ∈ monsterGridSpawns pal z rows ↔
      ∃ (j x : Nat) (c : Char), (rows[j]?.getD [])[x]? = some c ∧ c ≠ '.' ∧ c ≠ ' ' ∧
        pal.lookup c = some s.enemy_type ∧
        s.grid_pos = ((x : Int), ((z + j : Nat) : Int)) := by
  induction rows generalizing z with
  | nil => simp [monsterGridSpawns]
  | cons row rest ih =>
      rw [monsterGridSpawns, List.mem_append, mem_monsterRowSpawns row 0, ih (z + 1)]
      constructor
      · rintro (⟨i, c, hc, h1, h2, h3, h4⟩ | ⟨j, x, c, hc, h1, h2, h3, h4⟩)
        · refine ⟨0, i, c, by simpa using hc, h1, h2, h3, ?_⟩
          rw [h4]
          norm_num
        · refine ⟨j + 1, x, c, by simpa using hc, h1, h2, h3, ?_⟩
          rw [h4]
          have : z + 1 + j = z + (j + 1) := by omega
          rw [this]
      · rintro ⟨j, x, c, hc, h1, h2, h3, h4⟩
        cases j with
        | zero =>
            left
            refine ⟨x, c, by simpa using hc, h1, h2, h3, ?_⟩
            rw [h4]
            norm_num
        | succ j =>
            right
            refine ⟨j, x, c, by simpa using hc, h1, h2, h3, ?_⟩
            rw [h4]
            have : z + (j + 1) = z + 1 + j := by omega
            rw [this]

theorem monsterGridSpawns_pos {pal : List (Char × String)}
    (rows : List (List Char)) (z : Nat) :
    ∀ s ∈ monsterGridSpawns pal z rows, (z : Int) ≤ s.grid_pos.2 := by
  intro s hs
  rcases (mem_monsterGridSpawns rows z).mp hs with ⟨j, x, c, _, _, _, _, h4⟩
  rw [h4]
  show (z : Int) ≤ ((z + j : Nat) : Int)
  push_cast
  omega

theorem monsterGridSpawns_pairwise {pal : List (Char × String)}
    (rows : List (List Char)) (z : Nat) :
    (monsterGridSpawns pal z rows).Pairwise spawnRowMajorLt := by
  induction rows generalizing z with
  | nil => simp [monsterGridSpawns]
  | cons row rest ih =>
      rw [monsterGridSpawns, List.pairwise_append]
      refine ⟨?_, ih (z + 1), ?_⟩
      · refine List.Pairwise.imp_of_mem ?_ (monsterRowSpawns_pairwise row 0)
        intro a b ha hb hlt
        right
        have ha2 := (monsterRowSpawns_pos row 0 a ha).1
        have hb2 := (monsterRowSpawns_pos row 0 b hb).1
        exact ⟨by rw [ha2, hb2], hlt⟩
      · intro a ha b hb
        left
        have ha2 := (monsterRowSpawns_pos row 0 a ha).1
        have hb2 := monsterGridSpawns_pos rest (z + 1) b hb
        rw [ha2]
        push_cast at hb2
        omega

/-- The full description of the resolved monster-spawn list: a record is in
the list exactly for the non-blank, catalog-known cells; the list is sorted
in strict row-major order; each qualifying cell contributes exactly one
record; a cell whose character misses the catalog contributes none. -/
def MonsterSpawnSpec (raw : LevelDefinitionRaw) (reg : PaletteRegistry)
    (level : LevelDefinition) : Prop :=
  (∀ s, s ∈ level.monster_spawns ↔
    ∃ (z x : Nat) (c : Char), (raw.monsters[z]?.getD [])[x]? = some c ∧
      c ≠ '.' ∧ c ≠ ' ' ∧
      (effectiveMonsterPalette raw reg).lookup c = some s.enemy_type ∧
      s.grid_pos = ((x : Int), (z : Int))) ∧
  level.monster_spawns.Pairwise spawnRowMajorLt ∧
  (∀ (z x : Nat) (c : Char) (e : String),
    (raw.monsters[z]?.getD [])[x]? = some c → c ≠ '.' → c ≠ ' ' →
    (effectiveMonsterPalette raw reg).lookup c = some e →
    level.monster_spawns.count
      { grid_pos := ((x : Int), (z : Int)), enemy_type := e } = 1) ∧
  (∀ (z x : Nat) (c : Char),
    (raw.monsters[z]?.getD [])[x]? = some c →
    (effectiveMonsterPalette raw reg).lookup c = none →
    ∀ s ∈ level.monster_spawns, s.grid_pos ≠ ((x : Int), (z : Int)))

/-- C7: for a level with a non-empty, dimension-matching monster grid, the
resolved spawn list has exactly one record — grid position and catalog
enemy-type string — per non-blank, catalog-known cell, in row-major order;
an unknown non-blank character contributes no record and resolution still
succeeds. -/
theorem spec_C7 (raw : LevelDefinitionRaw) (reg : PaletteRegistry)
    (level : LevelDefinition)
    (h : LevelDefinition.from_raw raw reg = .ok level)
    (hmon : raw.monsters ≠ []) :
    MonsterSpawnSpec raw reg level := by
  obtain ⟨h1, h2, h3, rfl⟩ := (from_raw_eq_ok_iff raw reg level).mp h
  have hspawns : (mkResolvedLevel raw reg).monster_spawns =
      monsterGridSpawns (effectiveMonsterPalette raw reg) 0 raw.monsters := by
    show resolvedMonsterSpawns raw reg = _
    rw [resolvedMonsterSpawns, if_neg hmon]
  have hmem : ∀ s, s ∈ (mkResolvedLevel raw reg).monster_spawns ↔
      ∃ (z x : Nat) (c : Char), (raw.monsters[z]?.getD [])[x]? = some c ∧
        c ≠ '.' ∧ c ≠ ' ' ∧
        (effectiveMonsterPalette raw reg).lookup c = some s.enemy_type ∧
        s.grid_pos = ((x : Int), (z : Int)) := by
    intro s
    rw [hspawns, mem_monsterGridSpawns raw.monsters 0]
    constructor
    · rintro ⟨j, x, c, hc, hb1, hb2, hl, hp⟩
      exact ⟨j, x, c, hc, hb1, hb2, hl, by simpa using hp⟩
    · rintro ⟨z, x, c, hc, hb1, hb2, hl, hp⟩
      exact ⟨z, x, c, hc, hb1, hb2, hl, by simpa using hp⟩
  have hpw : (mkResolvedLevel raw reg).monster_spawns.Pairwise spawnRowMajorLt := by
    rw [hspawns]
    exact monsterGridSpawns_pairwise raw.monsters 0
  have hnodup : (mkResolvedLevel raw reg).monster_spawns.Nodup := by
    refine hpw.imp ?_
    intro a b hab heq
    subst heq
    rcases hab with hlt | ⟨_, hlt⟩ <;> exact lt_irrefl _ hlt
  refine ⟨hmem, hpw, ?_, ?_⟩
  · intro z x c e hc hb1 hb2 hl
    have hmm : ({ grid_pos := ((x : Int), (z : Int)), enemy_type := e } :
        ResolvedMonsterSpawn) ∈ (mkResolvedLevel raw reg).monster_spawns :=
      (hmem _).mpr ⟨z, x, c, hc, hb1, hb2, hl, rfl⟩
    exact List.count_eq_one_of_mem hnodup hmm
  · intro z x c hc hmiss s hs heq
    rcases (hmem s).mp hs with ⟨z2, x2, c2, hc2, _, _, hl2, hp2⟩
    rw [heq] at hp2
    have hx : x2 = x ∧ z2 = z := by
      have h1 := congrArg Prod.fst hp2
      have h2 := congrArg Prod.snd hp2
      simp only at h1 h2
      constructor <;> omega
    rcases hx with ⟨rfl, rfl⟩
    rw [hc] at hc2
    have hcc : c = c2 := by simpa using hc2
    subst hcc
    rw [hl2] at hmiss
    simp at hmiss

/-- A level whose monster grid holds a known character 'g' and the unknown
character 'Z'. -/
def c7raw : LevelDefinitionRaw :=
  { name := "mon", tile_size := 2, default_wall_height := 4,
    default_floor_depth := 1/2, default_ceiling_height := 4,
    default_ceiling_thickness := 3/10,
    global_ambient := ⟨(2/5, 2/5, 1/2), 30⟩, player_start := (0, 0),
    geometry_palette_file := none, ambient_palette_file := none,
    monster_palette_file := none, ceiling_palette_file := none,
    geometry_palette := [('F', ⟨.Floor, none, none, none⟩)],
    ambient_palette := [], monster_palette := [('g', "ghoul")],
    ceiling_palette := [],
    geometry := [['F', 'F']],
    ambient := [['.', '.']],
    monsters := [['g', 'Z']], ceiling := [], spawn_zones := [] }

theorem spec_C7_witness :
    LevelDefinition.from_raw c7raw emptyRegistry =
      .ok (mkResolvedLevel c7raw emptyRegistry) ∧
    c7raw.monsters ≠ [] ∧
    (mkResolvedLevel c7raw emptyRegistry).monster_spawns =
      [{ grid_pos := (0, 0), enemy_type := "ghoul" }] ∧
    MonsterSpawnSpec c7raw emptyRegistry (mkResolvedLevel c7raw emptyRegistry) := by
  have h : LevelDefinition.from_raw c7raw emptyRegistry =
      .ok (mkResolvedLevel c7raw emptyRegistry) :=
    (from_raw_eq_ok_iff c7raw emptyRegistry _).mpr
      ⟨by decide, by decide, by decide, rfl⟩
  exact ⟨h, by decide, by decide,
    spec_C7 c7raw emptyRegistry _ h (by decide)⟩

/-! ### C9: hardcoded blanks in the ambient, monster and ceiling layers;
no blank in the geometry layer -/

/-- Blank handling across layers: in the ambient, monster and ceiling
layers the characters '.' and ' ' are tested before any catalog lookup, so
they resolve to empty ambient, no spawn record, and no ceiling regardless
of the effective catalogs; the geometry layer passes every character,
including '.', to the catalog lookup. -/
def BlankCharSpec (raw : LevelDefinitionRaw) (reg : PaletteRegistry)
    (level : LevelDefinition) : Prop :=
  (∀ (z x : Nat) (c : Char), (raw.ambient[z]?.getD [])[x]? = some c →
    (c = '.' ∨ c = ' ') →
    (level.ambient[z]?.bind fun row => row[x]?) =
      some ResolvedAmbientTile.defaultTile) ∧
  (∀ (z x : Nat) (c : Char), (raw.monsters[z]?.getD [])[x]? = some c →
    (c = '.' ∨ c = ' ') →
    ∀ s ∈ level.monster_spawns, s.grid_pos ≠ ((x : Int), (z : Int))) ∧
  (raw.ceiling ≠ [] →
    ∀ (z x : Nat) (c : Char), (raw.ceiling[z]?.getD [])[x]? = some c →
    (c = '.' ∨ c = ' ') →
    (level.ceiling[z]?.bind fun row => row[x]?) = some none) ∧
  (∀ (z x : Nat) (c : Char), (raw.geometry[z]?.getD [])[x]? = some c →
    (level.geometry[z]?.bind fun row => row[x]?) =
      some (resolveGeometryChar (effectiveGeometryPalette raw reg) raw c))

/-- C9: '.' and ' ' are hardcoded blanks of the ambient, monster and ceiling
layers, tested before any catalog lookup, so a catalog entry keyed '.' or
' ' is ignored there; the geometry layer has no blank — '.' is looked up
like any other character, resolving to its catalog entry when present and to
the Void default exactly when absent. -/
theorem spec_C9 (raw : LevelDefinitionRaw) (reg : PaletteRegistry)
    (level : LevelDefinition)
    (h : LevelDefinition.from_raw raw reg = .ok level) :
    BlankCharSpec raw reg level ∧
    (∀ (pal : List (Char × GeometryTileDef)) (raw2 : LevelDefinitionRaw)
      (c : Char) (d : GeometryTileDef),
      pal.lookup c = some d →
      resolveGeometryChar pal raw2 c =
        { kind := d.kind, material := d.material.getD "stone",
          height := d.height.getD raw2.default_wall_height,
          floor_depth := d.floor_depth.getD raw2.default_floor_depth }) ∧
    (∀ (pal : List (Char × GeometryTileDef)) (raw2 : LevelDefinitionRaw)
      (c : Char),
      pal.lookup c = none →
      resolveGeometryChar pal raw2 c = ResolvedGeometryTile.defaultTile) := by
  obtain ⟨h1, h2, h3, rfl⟩ := (from_raw_eq_ok_iff raw reg level).mp h
  obtain ⟨hlen, hwid⟩ := from_raw_dims raw h1
  refine ⟨⟨?_, ?_, ?_, ?_⟩, ?_, ?_⟩
  · intro z x c hc hblank
    obtain ⟨hz, hx⟩ := rawCell_bounds hc
    show ((resolvedAmbientGrid raw reg)[z]?.bind fun row => row[x]?) = _
    rw [resolvedAmbientGrid, mappedGrid_cell raw.ambient _ _ _ z x hz hx, hc]
    simp only [Option.map_some', Option.getD_some]
    rw [resolveAmbientChar, if_pos hblank]
  · intro z x c hc hblank s hs heq
    by_cases hm : raw.monsters = []
    · rw [show (mkResolvedLevel raw reg).monster_spawns =
          resolvedMonsterSpawns raw reg from rfl, resolvedMonsterSpawns,
        if_pos hm] at hs
      simp at hs
    · rw [show (mkResolvedLevel raw reg).monster_spawns =
          resolvedMonsterSpawns raw reg from rfl, resolvedMonsterSpawns,
        if_neg hm] at hs
      rcases (mem_monsterGridSpawns raw.monsters 0).mp hs with
        ⟨z2, x2, c2, hc2, hb1, hb2, _, hp2⟩
      rw [heq] at hp2
      have hx2 : x2 = x ∧ z2 = z := by
        have e1 := congrArg Prod.fst hp2
        have e2 := congrArg Prod.snd hp2
        simp only at e1 e2
        constructor <;> omega
      rcases hx2 with ⟨rfl, rfl⟩
      rw [hc] at hc2
      have hcc : c = c2 := by simpa using hc2
      subst hcc
      rcases hblank with rfl | rfl
      · exact hb1 rfl
      · exact hb2 rfl
  · intro hne z x c hc hblank
    obtain ⟨hz, hx⟩ := rawCell_bounds hc
    have hdimsC : raw.ceiling.length = raw.geometry.length ∧
        gridWidth raw.ceiling = gridWidth raw.geometry := by
      unfold ceilingMismatch at h3
      push_neg at h3
      exact h3 hne
    show ((resolvedCeilingGrid raw reg)[z]?.bind fun row => row[x]?) = _
    rw [resolvedCeilingGrid, if_pos hne,
      mappedGrid_cell raw.ceiling _ _ _ z x hz (by omega), hc]
    simp only [Option.map_some', Option.getD_some]
    rw [resolveCeilingChar, if_pos hblank]
  · intro z x c hc
    obtain ⟨hz, hx⟩ := rawCell_bounds hc
    show ((resolvedGeometryGrid raw reg)[z]?.bind fun row => row[x]?) = _
    rw [resolvedGeometryGrid, mappedGrid_cell raw.geometry _ _ _ z x hz hx, hc]
    simp only [Option.map_some', Option.getD_some]
  · intro pal raw2 c d hl
    rw [resolveGeometryChar, hl]
  · intro pal raw2 c hl
    rw [resolveGeometryChar, hl]

/-- A level whose every layer grid is the single blank-looking character '.'
while every effective catalog defines an entry keyed '.': the geometry entry
is honored, the ambient, monster and ceiling entries are ignored. -/
def c9raw : LevelDefinitionRaw :=
  { name := "blank", tile_size := 2, default_wall_height := 4,
    default_floor_depth := 1/2, default_ceiling_height := 4,
    default_ceiling_thickness := 3/10,
    global_ambient := ⟨(2/5, 2/5, 1/2), 30⟩, player_start := (0, 0),
    geometry_palette_file := none, ambient_palette_file := none,
    monster_palette_file := none, ceiling_palette_file := none,
    geometry_palette := [('.', ⟨.Floor, none, none, none⟩)],
    ambient_palette :=
      [('.', ⟨[⟨2, 100, false, (1, 1, 1), 15⟩], [], []⟩)],
    monster_palette := [('.', "ghoul")],
    ceiling_palette := [('.', ⟨some "stone_ceiling", none, none⟩)],
    geometry := [['.']],
    ambient := [['.']],
    monsters := [['.']], ceiling := [['.']], spawn_zones := [] }

theorem spec_C9_witness :
    LevelDefinition.from_raw c9raw emptyRegistry =
      .ok (mkResolvedLevel c9raw emptyRegistry) ∧
    ((effectiveAmbientPalette c9raw emptyRegistry).lookup '.').isSome = true ∧
    ((effectiveMonsterPalette c9raw emptyRegistry).lookup '.').isSome = true ∧
    ((effectiveCeilingPalette c9raw emptyRegistry).lookup '.').isSome = true ∧
    ((mkResolvedLevel c9raw emptyRegistry).get_geometry 0 0).kind =
      GeometryKind.Floor ∧
    BlankCharSpec c9raw emptyRegistry (mkResolvedLevel c9raw emptyRegistry) := by
  have h : LevelDefinition.from_raw c9raw emptyRegistry =
      .ok (mkResolvedLevel c9raw emptyRegistry) :=
    (from_raw_eq_ok_iff c9raw emptyRegistry _).mpr
      ⟨by decide, by decide, by decide, rfl⟩
  exact ⟨h, by decide, by decide, by decide, by decide,
    (spec_C9 c9raw emptyRegistry _ h).1⟩

/-! ### Counting lemmas for the builder instruction list -/

theorem countP_flatMap {α β : Type _} (p : β → Bool) (l : List α)
    (f : α → List β) :
    (l.flatMap f).countP p = (l.map fun a => (f a).countP p).sum := by
  induction l with
  | nil => simp
  | cons a rest ih => simp [List.flatMap_cons, List.countP_append, ih]

theorem sum_map_range_eq_single (f : Nat → Nat) (n k : Nat) (hk : k < n)
    (h : ∀ i, i ≠ k → f i = 0) :
    ((List.range n).map f).sum = f k := by
  induction n with
  | zero => omega
  | succ n ih =>
      rw [List.range_succ, List.map_append, List.sum_append]
      rcases Nat.lt_or_ge k n with hkn | hkn
      · rw [ih hkn]
        simp [h n (by omega)]
      · have hk2 : k = n := by omega
        subst hk2
        have hz : ((List.range k).map f).sum = 0 := by
          apply List.sum_eq_zero
          intro y hy
          rcases List.mem_map.mp hy with ⟨i, hi, rfl⟩
          exact h i (by rw [List.mem_range] at hi; omega)
        simp [hz]

/-- Recognizer for a wall-segment instruction emitted at cell (x, z) toward
direction d. -/
def isWallSegAt (x z : Int) (d : Dir) : Instruction → Bool
  | .wallSeg x2 z2 d2 _ _ _ => decide (x2 = x ∧ z2 = z ∧ d2 = d)
  | _ => false

/-- Recognizer for a floor-slab instruction emitted at cell (x, z). -/
def isFloorSlabAt (x z : Int) : Instruction → Bool
  | .floorSlab x2 z2 _ _ _ => decide (x2 = x ∧ z2 = z)
  | _ => false

theorem countP_if_singleton (p : Instruction → Bool) (c : Prop) [Decidable c]
    (a : Instruction) :
    (if c then [a] else []).countP p = if c ∧ p a = true then 1 else 0 := by
  split_ifs with h1 h2 <;>
    simp_all [List.countP_cons, List.countP_nil]

theorem countP_spawn_walls (level : LevelDefinition) (x z x0 z0 : Int) (d : Dir) :
    (spawn_walls_for_tile level x z).countP (isWallSegAt x0 z0 d) =
      if x = x0 ∧ z = z0 ∧
          needs_wall level (x0 + d.offset.1) (z0 + d.offset.2) = true
      then 1 else 0 := by
  unfold spawn_walls_for_tile
  rw [List.countP_append, List.countP_append, List.countP_append,
    countP_if_singleton, countP_if_singleton, countP_if_singleton,
    countP_if_singleton]
  by_cases hx : x = x0
  · subst hx
    by_cases hz : z = z0
    · subst hz
      cases d <;>
        simp [isWallSegAt, Dir.offset, sub_eq_add_neg, add_zero]
    · simp [isWallSegAt, hz]
  · simp [isWallSegAt, hx]

theorem countP_lights_zero (p : Instruction → Bool)
    (hp : ∀ x z pos i sh col r, p (.pointLight x z pos i sh col r) = false)
    (li : List LightDef) (g : LightDef → Instruction)
    (hg : ∀ l, ∃ x z pos i sh col r, g l = .pointLight x z pos i sh col r) :
    (li.map g).countP p = 0 := by
  rw [List.countP_eq_zero]
  intro a ha
  rcases List.mem_map.mp ha with ⟨l, _, rfl⟩
  rcases hg l with ⟨x, z, pos, i, sh, col, r, heq⟩
  rw [heq, hp]
  simp

theorem countP_tile_wall (level : LevelDefinition) (x z x0 z0 : Int) (d : Dir) :
    (tileInstructionsAt level x z).countP (isWallSegAt x0 z0 d) =
      if x = x0 ∧ z = z0 ∧
          ((level.get_geometry x z).kind = GeometryKind.Floor ∨
            (level.get_geometry x z).kind = GeometryKind.Pillar) ∧
          needs_wall level (x0 + d.offset.1) (z0 + d.offset.2) = true
      then 1 else 0 := by
  unfold tileInstructionsAt
  rw [List.countP_append, List.countP_append]
  have hlight : ((level.get_ambient x z).lights.map fun light_def =>
      Instruction.pointLight x z
        ((level.grid_to_world x z).1,
          (level.grid_to_world x z).2.1 + light_def.height,
          (level.grid_to_world x z).2.2)
        light_def.intensity light_def.shadows light_def.color
        light_def.range).countP (isWallSegAt x0 z0 d) = 0 := by
    apply countP_lights_zero
    · intro a b c e f g h
      rfl
    · intro l
      exact ⟨_, _, _, _, _, _, _, rfl⟩
  have hceil : (match level.get_ceiling x z with
      | some ceiling_tile =>
          [Instruction.ceilingSlab x z
            ((level.grid_to_world x z).1,
              ceiling_tile.height + ceiling_tile.thickness / 2,
              (level.grid_to_world x z).2.2)
            (level.tile_size, ceiling_tile.thickness, level.tile_size)
            ceiling_tile.material]
      | none => []).countP (isWallSegAt x0 z0 d) = 0 := by
    cases level.get_ceiling x z <;> simp [isWallSegAt]
  rw [hlight, hceil]
  cases hk : (level.get_geometry x z).kind with
  | Floor =>
      rw [List.countP_append]
      have hfl : (spawn_floor_tile level x z).countP (isWallSegAt x0 z0 d) = 0 := by
        simp [spawn_floor_tile, isWallSegAt]
      rw [hfl, countP_spawn_walls]
      simp [hk]
  | Doorway =>
      have hfl : (spawn_floor_tile level x z).countP (isWallSegAt x0 z0 d) = 0 := by
        simp [spawn_floor_tile, isWallSegAt]
      rw [hfl]
      simp [hk]
  | Pillar =>
      rw [List.countP_append, List.countP_append]
      have hfl : (spawn_floor_tile level x z).countP (isWallSegAt x0 z0 d) = 0 := by
        simp [spawn_floor_tile, isWallSegAt]
      have hpi : (spawn_pillar level x z).countP (isWallSegAt x0 z0 d) = 0 := by
        simp [spawn_pillar, isWallSegAt]
      rw [hfl, hpi, countP_spawn_walls]
      simp [hk]
  | Wall =>
      have hwc : (spawn_wall_cube level x z).countP (isWallSegAt x0 z0 d) = 0 := by
        simp [spawn_wall_cube, isWallSegAt]
      rw [hwc]
      simp [hk]
  | Void =>
      simp [hk]

theorem countP_tile_floor (level : LevelDefinition) (x z x0 z0 : Int) :
    (tileInstructionsAt level x z).countP (isFloorSlabAt x0 z0) =
      if x = x0 ∧ z = z0 ∧ (level.get_geometry x z).kind.has_floor = true
      then 1 else 0 := by
  unfold tileInstructionsAt
  rw [List.countP_append, List.countP_append]
  have hlight : ((level.get_ambient x z).lights.map fun light_def =>
      Instruction.pointLight x z
        ((level.grid_to_world x z).1,
          (level.grid_to_world x z).2.1 + light_def.height,
          (level.grid_to_world x z).2.2)
        light_def.intensity light_def.shadows light_def.color
        light_def.range).countP (isFloorSlabAt x0 z0) = 0 := by
    apply countP_lights_zero
    · intro a b c e f g h
      rfl
    · intro l
      exact ⟨_, _, _, _, _, _, _, rfl⟩
  have hceil : (match level.get_ceiling x z with
      | some ceiling_tile =>
          [Instruction.ceilingSlab x z
            ((level.grid_to_world x z).1,
              ceiling_tile.height + ceiling_tile.thickness / 2,
              (level.grid_to_world x z).2.2)
            (level.tile_size, ceiling_tile.thickness, level.tile_size)
            ceiling_tile.material]
      | none => []).countP (isFloorSlabAt x0 z0) = 0 := by
    cases level.get_ceiling x z <;> simp [isFloorSlabAt]
  rw [hlight, hceil]
  have hw : (spawn_walls_for_tile level x z).countP (isFloorSlabAt x0 z0) = 0 := by
    unfold spawn_walls_for_tile
    rw [List.countP_append, List.countP_append, List.countP_append,
      countP_if_singleton, countP_if_singleton, countP_if_singleton,
      countP_if_singleton]
    simp [isFloorSlabAt]
  have hfl : (spawn_floor_tile level x z).countP (isFloorSlabAt x0 z0) =
      if x = x0 ∧ z = z0 then 1 else 0 := by
    simp only [spawn_floor_tile, List.countP_cons, List.countP_nil, isFloorSlabAt]
    split_ifs with h1 h2 <;> simp_all
  cases hk : (level.get_geometry x z).kind with
  | Floor =>
      rw [List.countP_append, hfl, hw]
      simp [GeometryKind.has_floor]
  | Doorway =>
      rw [hfl]
      simp [GeometryKind.has_floor]
  | Pillar =>
      rw [List.countP_append, List.countP_append, hfl, hw]
      have hpi : (spawn_pillar level x z).countP (isFloorSlabAt x0 z0) = 0 := by
        simp [spawn_pillar, isFloorSlabAt]
      rw [hpi]
      simp [GeometryKind.has_floor]
  | Wall =>
      have hwc : (spawn_wall_cube level x z).countP (isFloorSlabAt x0 z0) = 0 := by
        simp [spawn_wall_cube, isFloorSlabAt]
      rw [hwc]
      simp [GeometryKind.has_floor]
  | Void =>
      simp [GeometryKind.has_floor]

theorem countP_build_wall (level : LevelDefinition) (x0 z0 : Int) (d : Dir) :
    (build_level_instructions level).countP (isWallSegAt x0 z0 d) =
      if 0 ≤ x0 ∧ x0 < (level.width : Int) ∧ 0 ≤ z0 ∧ z0 < (level.height : Int) ∧
          ((level.get_geometry x0 z0).kind = GeometryKind.Floor ∨
            (level.get_geometry x0 z0).kind = GeometryKind.Pillar) ∧
          needs_wall level (x0 + d.offset.1) (z0 + d.offset.2) = true
      then 1 else 0 := by
  unfold build_level_instructions
  rw [countP_flatMap]
  by_cases hin : 0 ≤ x0 ∧ x0 < (level.width : Int) ∧ 0 ≤ z0 ∧
      z0 < (level.height : Int)
  · obtain ⟨hx1, hx2, hz1, hz2⟩ := hin
    have hzero : ∀ i, i ≠ z0.toNat →
        ((List.range level.width).flatMap fun x =>
          tileInstructionsAt level ((x : Nat) : Int) ((i : Nat) : Int)).countP
            (isWallSegAt x0 z0 d) = 0 := by
      intro i hi
      rw [countP_flatMap]
      apply List.sum_eq_zero
      intro y hy
      rcases List.mem_map.mp hy with ⟨j, hj, rfl⟩
      rw [countP_tile_wall, if_neg]
      rintro ⟨-, h2, -⟩
      omega
    rw [sum_map_range_eq_single _ level.height z0.toNat (by omega) hzero]
    have hzero2 : ∀ j, j ≠ x0.toNat →
        (tileInstructionsAt level ((j : Nat) : Int) ((z0.toNat : Nat) : Int)).countP
          (isWallSegAt x0 z0 d) = 0 := by
      intro j hj
      rw [countP_tile_wall, if_neg]
      rintro ⟨h1, -, -⟩
      omega
    rw [countP_flatMap,
      sum_map_range_eq_single _ level.width x0.toNat (by omega) hzero2,
      countP_tile_wall]
    have hxx : ((x0.toNat : Nat) : Int) = x0 := by omega
    have hzz : ((z0.toNat : Nat) : Int) = z0 := by omega
    simp only [hxx, hzz]
    simp [hx1, hx2, hz1, hz2]
  · rw [if_neg (by tauto)]
    apply List.sum_eq_zero
    intro y hy
    rcases List.mem_map.mp hy with ⟨i, hi, rfl⟩
    rw [countP_flatMap]
    apply List.sum_eq_zero
    intro y2 hy2
    rcases List.mem_map.mp hy2 with ⟨j, hj, rfl⟩
    rw [countP_tile_wall, if_neg]
    rintro ⟨h1, h2, -⟩
    rw [List.mem_range] at hi hj
    apply hin
    omega

theorem countP_build_floor (level : LevelDefinition) (x0 z0 : Int) :
    (build_level_instructions level).countP (isFloorSlabAt x0 z0) =
      if 0 ≤ x0 ∧ x0 < (level.width : Int) ∧ 0 ≤ z0 ∧ z0 < (level.height : Int) ∧
          (level.get_geometry x0 z0).kind.has_floor = true
      then 1 else 0 := by
  unfold build_level_instructions
  rw [countP_flatMap]
  by_cases hin : 0 ≤ x0 ∧ x0 < (level.width : Int) ∧ 0 ≤ z0 ∧
      z0 < (level.height : Int)
  · obtain ⟨hx1, hx2, hz1, hz2⟩ := hin
    have hzero : ∀ i, i ≠ z0.toNat →
        ((List.range level.width).flatMap fun x =>
          tileInstructionsAt level ((x : Nat) : Int) ((i : Nat) : Int)).countP
            (isFloorSlabAt x0 z0) = 0 := by
      intro i hi
      rw [countP_flatMap]
      apply List.sum_eq_zero
      intro y hy
      rcases List.mem_map.mp hy with ⟨j, hj, rfl⟩
      rw [countP_tile_floor, if_neg]
      rintro ⟨-, h2, -⟩
      omega
    rw [sum_map_range_eq_single _ level.height z0.toNat (by omega) hzero]
    have hzero2 : ∀ j, j ≠ x0.toNat →
        (tileInstructionsAt level ((j : Nat) : Int) ((z0.toNat : Nat) : Int)).countP
          (isFloorSlabAt x0 z0) = 0 := by
      intro j hj
      rw [countP_tile_floor, if_neg]
      rintro ⟨h1, -, -⟩
      omega
    rw [countP_flatMap,
      sum_map_range_eq_single _ level.width x0.toNat (by omega) hzero2,
      countP_tile_floor]
    have hxx : ((x0.toNat : Nat) : Int) = x0 := by omega
    have hzz : ((z0.toNat : Nat) : Int) = z0 := by omega
    simp only [hxx, hzz]
    simp [hx1, hx2, hz1, hz2]
  · rw [if_neg (by tauto)]
    apply List.sum_eq_zero
    intro y hy
    rcases List.mem_map.mp hy with ⟨i, hi, rfl⟩
    rw [countP_flatMap]
    apply List.sum_eq_zero
    intro y2 hy2
    rcases List.mem_map.mp hy2 with ⟨j, hj, rfl⟩
    rw [countP_tile_floor, if_neg]
    rintro ⟨h1, h2, -⟩
    rw [List.mem_range] at hi hj
    apply hin
    omega

/-! ### C3: neighbor wall inference -/

/-- The opposite of a wall direction. -/
def Dir.opposite : Dir → Dir
  | .north => .south
  | .south => .north
  | .west => .east
  | .east => .west

theorem offset_opposite_cancel (d : Dir) (x z : Int) :
    x + d.offset.1 + d.opposite.offset.1 = x ∧
      z + d.offset.2 + d.opposite.offset.2 = z := by
  cases d <;> constructor <;> simp [Dir.opposite, Dir.offset]

/-- The number of wall segments emitted on the shared boundary between cell
(x, z) and its neighbor in direction d: segments emitted from (x, z) toward
d plus segments emitted from the neighbor back toward (x, z). The two
emission sites place their cuboids at the same world position on the shared
boundary. -/
def wallBoundaryCount (level : LevelDefinition) (x z : Int) (d : Dir) : Nat :=
  (build_level_instructions level).countP (isWallSegAt x z d) +
    (build_level_instructions level).countP
      (isWallSegAt (x + d.offset.1) (z + d.offset.2) d.opposite)

/-- C3: during geometry synthesis an in-bounds tile of kind Floor or Pillar
emits a wall segment on each of its four boundaries iff the neighboring
tile there (out-of-bounds counting as Void) has kind Void; Doorway tiles
never receive inferred walls; two adjacent Floor tiles share no wall, and a
Floor tile adjacent to a Void tile gets exactly one wall segment on that
boundary. -/
theorem spec_C3 (level : LevelDefinition) :
    (∀ (x z : Int) (d : Dir),
      (build_level_instructions level).countP (isWallSegAt x z d) =
        if 0 ≤ x ∧ x < (level.width : Int) ∧ 0 ≤ z ∧ z < (level.height : Int) ∧
            ((level.get_geometry x z).kind = GeometryKind.Floor ∨
              (level.get_geometry x z).kind = GeometryKind.Pillar) ∧
            (level.get_geometry (x + d.offset.1) (z + d.offset.2)).kind =
              GeometryKind.Void
        then 1 else 0) ∧
    (∀ (x z : Int) (d : Dir),
      (level.get_geometry x z).kind = GeometryKind.Doorway →
      (build_level_instructions level).countP (isWallSegAt x z d) = 0) ∧
    (∀ (x z : Int) (d : Dir),
      (level.get_geometry x z).kind = GeometryKind.Floor →
      (level.get_geometry (x + d.offset.1) (z + d.offset.2)).kind =
        GeometryKind.Floor →
      wallBoundaryCount level x z d = 0) ∧
    (∀ (x z : Int) (d : Dir),
      0 ≤ x → x < (level.width : Int) → 0 ≤ z → z < (level.height : Int) →
      (level.get_geometry x z).kind = GeometryKind.Floor →
      (level.get_geometry (x + d.offset.1) (z + d.offset.2)).kind =
        GeometryKind.Void →
      wallBoundaryCount level x z d = 1) := by
  have hmain : ∀ (x z : Int) (d : Dir),
      (build_level_instructions level).countP (isWallSegAt x z d) =
        if 0 ≤ x ∧ x < (level.width : Int) ∧ 0 ≤ z ∧ z < (level.height : Int) ∧
            ((level.get_geometry x z).kind = GeometryKind.Floor ∨
              (level.get_geometry x z).kind = GeometryKind.Pillar) ∧
            (level.get_geometry (x + d.offset.1) (z + d.offset.2)).kind =
              GeometryKind.Void
        then 1 else 0 := by
    intro x z d
    rw [countP_build_wall]
    simp only [needs_wall, decide_eq_true_eq]
  refine ⟨hmain, ?_, ?_, ?_⟩
  · intro x z d hk
    rw [hmain, if_neg]
    rintro ⟨-, -, -, -, hfp, -⟩
    rw [hk] at hfp
    rcases hfp with h | h <;> exact GeometryKind.noConfusion h
  · intro x z d hk hk2
    unfold wallBoundaryCount
    obtain ⟨hc1, hc2⟩ := offset_opposite_cancel d x z
    rw [hmain, hmain, if_neg, if_neg]
    · rintro ⟨-, -, -, -, -, hv⟩
      rw [hc1, hc2, hk] at hv
      exact GeometryKind.noConfusion hv
    · rintro ⟨-, -, -, -, -, hv⟩
      rw [hk2] at hv
      exact GeometryKind.noConfusion hv
  · intro x z d hx1 hx2 hz1 hz2 hk hk2
    unfold wallBoundaryCount
    obtain ⟨hc1, hc2⟩ := offset_opposite_cancel d x z
    rw [hmain, hmain, if_pos ⟨hx1, hx2, hz1, hz2, Or.inl hk, hk2⟩, if_neg]
    rintro ⟨-, -, -, -, hfp, -⟩
    rw [hk2] at hfp
    rcases hfp with h | h <;> exact GeometryKind.noConfusion h

/-- A one-row resolved level: Floor, Floor, Void. -/
def c3level : LevelDefinition :=
  { name := "w3", tile_size := 2, default_wall_height := 4,
    default_floor_depth := 1/2, default_ceiling_height := 4,
    default_ceiling_thickness := 3/10,
    global_ambient := ⟨(2/5, 2/5, 1/2), 30⟩, player_start := (0, 0),
    width := 3, height := 1,
    geometry :=
      [[{ kind := .Floor, material := "stone", height := 4, floor_depth := 1/2 },
        { kind := .Floor, material := "stone", height := 4, floor_depth := 1/2 },
        ResolvedGeometryTile.defaultTile]],
    ambient := [[ResolvedAmbientTile.defaultTile, ResolvedAmbientTile.defaultTile,
      ResolvedAmbientTile.defaultTile]],
    ceiling := [[none, none, none]],
    monster_spawns := [], spawn_zones := [] }

theorem spec_C3_witness :
    ((c3level.get_geometry 0 0).kind = GeometryKind.Floor ∧
      (c3level.get_geometry (0 + Dir.east.offset.1)
        (0 + Dir.east.offset.2)).kind = GeometryKind.Floor ∧
      wallBoundaryCount c3level 0 0 Dir.east = 0) ∧
    (0 ≤ (1 : Int) ∧ (1 : Int) < (c3level.width : Int) ∧ 0 ≤ (0 : Int) ∧
      (0 : Int) < (c3level.height : Int) ∧
      (c3level.get_geometry 1 0).kind = GeometryKind.Floor ∧
      (c3level.get_geometry (1 + Dir.east.offset.1)
        (0 + Dir.east.offset.2)).kind = GeometryKind.Void ∧
      wallBoundaryCount c3level 1 0 Dir.east = 1) :=
  ⟨⟨by decide, by decide,
    (spec_C3 c3level).2.2.1 0 0 .east (by decide) (by decide)⟩,
   ⟨by decide, by decide, by decide, by decide, by decide, by decide,
    (spec_C3 c3level).2.2.2 1 0 .east (by decide) (by decide) (by decide)
      (by decide) (by decide) (by decide)⟩⟩

/-! ### C8: floor slab emission -/

/-- C8: every in-bounds resolved geometry tile whose kind has a floor
(Floor, Doorway, Pillar) produces exactly one floor-slab instruction; the
emitted slab's vertical size is the tile's floor depth and its top face
(center y plus half the vertical size) sits at y = 0, the implicit tile
elevation of the live data model; the refactored geometry-module emitter,
whose tile record carries an explicit elevation, puts the top face at that
elevation with the same thickness. -/
theorem spec_C8 :
    (∀ (level : LevelDefinition) (x z : Int),
      (build_level_instructions level).countP (isFloorSlabAt x z) =
        if 0 ≤ x ∧ x < (level.width : Int) ∧ 0 ≤ z ∧ z < (level.height : Int) ∧
            (level.get_geometry x z).kind.has_floor = true
        then 1 else 0) ∧
    (∀ (level : LevelDefinition) (x z : Int),
      0 ≤ x → x < (level.width : Int) → 0 ≤ z → z < (level.height : Int) →
      (level.get_geometry x z).kind.has_floor = true →
      Instruction.floorSlab x z
        ((level.grid_to_world x z).1,
          -(level.get_geometry x z).floor_depth / 2,
          (level.grid_to_world x z).2.2)
        (level.tile_size, (level.get_geometry x z).floor_depth, level.tile_size)
        (level.get_geometry x z).material ∈ build_level_instructions level) ∧
    (∀ (level : LevelDefinition) (x z : Int),
      -(level.get_geometry x z).floor_depth / 2 +
        (level.get_geometry x z).floor_depth / 2 = 0) ∧
    (∀ (wp : ℚ × ℚ × ℚ) (tile_size : ℚ) (t : GeometryTileSpec),
      (spawn_floor_tile_geometry wp tile_size t).center.2.1 +
        (spawn_floor_tile_geometry wp tile_size t).size.2.1 / 2 = t.elevation ∧
      (spawn_floor_tile_geometry wp tile_size t).size.2.1 = t.floor_depth) := by
  refine ⟨countP_build_floor, ?_, ?_, ?_⟩
  · intro level x z hx1 hx2 hz1 hz2 hf
    unfold build_level_instructions
    rw [List.mem_flatMap]
    refine ⟨z.toNat, by rw [List.mem_range]; omega, ?_⟩
    rw [List.mem_flatMap]
    refine ⟨x.toNat, by rw [List.mem_range]; omega, ?_⟩
    have hxx : ((x.toNat : Nat) : Int) = x := by omega
    have hzz : ((z.toNat : Nat) : Int) = z := by omega
    rw [hxx, hzz]
    cases hk : (level.get_geometry x z).kind with
    | Floor => simp [tileInstructionsAt, hk, spawn_floor_tile]
    | Doorway => simp [tileInstructionsAt, hk, spawn_floor_tile]
    | Pillar => simp [tileInstructionsAt, hk, spawn_floor_tile]
    | Wall => rw [hk] at hf; simp [GeometryKind.has_floor] at hf
    | Void => rw [hk] at hf; simp [GeometryKind.has_floor] at hf
  · intro level x z
    ring
  · intro wp tile_size t
    constructor
    · show t.elevation - t.floor_depth / 2 + t.floor_depth / 2 = t.elevation
      ring
    · rfl

theorem spec_C8_witness :
    (0 ≤ (0 : Int) ∧ (0 : Int) < (c3level.width : Int) ∧ 0 ≤ (0 : Int) ∧
      (0 : Int) < (c3level.height : Int) ∧
      (c3level.get_geometry 0 0).kind.has_floor = true) ∧
    Instruction.floorSlab 0 0
      ((c3level.grid_to_world 0 0).1,
        -(c3level.get_geometry 0 0).floor_depth / 2,
        (c3level.grid_to_world 0 0).2.2)
      (c3level.tile_size, (c3level.get_geometry 0 0).floor_depth,
        c3level.tile_size)
      (c3level.get_geometry 0 0).material ∈ build_level_instructions c3level :=
  ⟨⟨by decide, by decide, by decide, by decide, by decide⟩,
    spec_C8.2.1 c3level 0 0 (by decide) (by decide) (by decide) (by decide)
      (by decide)⟩

end Lunacid
